import Mathlib

/-!
Verification of the jsc_decompiler repository against its natural-language
specification.  Each Python function relevant to the claims is shallowly
embedded as an executable Lean definition (machine integers become `Nat`
with explicit `% 2 ^ w` wrapping, Python's signed arithmetic is routed
through `Int` where an intermediate value can be negative, fallible code
returns `Option` or `Except`).  The theorems at the end of the file settle
the claims.
-/

namespace JscDecompiler

/-! ## Embedding of src/common/version.py -/

/-- `_mask32` from src/common/version.py. -/
def mask32 (v : Nat) : Nat := v % 2 ^ 32

/-- `_mask64` from src/common/version.py. -/
def mask64 (v : Nat) : Nat := v % 2 ^ 64

/-- Python `x % 2**32` for a possibly negative `x` (Python's `%` returns a
non-negative result for a positive modulus, as does `Int.emod`). -/
def intMask32 (i : Int) : Nat := (i % (2 ^ 32 : Int)).toNat

/-- `hash_value_unsigned` from src/common/version.py.  The first step
`(v << 15) - v - 1` is computed in `Int` because Python evaluates it on
unbounded signed integers before masking (it is negative for `v = 0`). -/
def hash_value_unsigned (v : Nat) : Nat :=
  let v1 := intMask32 (((v <<< 15 : Nat) : Int) - (v : Int) - 1)
  let v2 := mask32 (v1 ^^^ (v1 >>> 12))
  let v3 := mask32 (v2 + (v2 <<< 2))
  let v4 := mask32 (v3 ^^^ (v3 >>> 4))
  let v5 := mask32 (v4 * 2057)
  mask32 (v5 ^^^ (v5 >>> 16))

/-- `hash_combine` from src/common/version.py (32-bit variant). -/
def hash_combine (seed value : Nat) : Nat :=
  let v1 := mask32 (value * 0xCC9E2D51)
  let v2 := mask32 ((v1 >>> 15) ||| (v1 <<< 17))
  let v3 := mask32 (v2 * 0x1B873593)
  let s1 := seed ^^^ v3
  let s2 := mask32 ((s1 >>> 13) ||| (s1 <<< 19))
  mask32 (s2 * 5 + 0xE6546B64)

/-- `hash_combine64` from src/common/version.py. -/
def hash_combine64 (seed value : Nat) : Nat :=
  let m := 0xC6A4A7935BD1E995
  let v1 := mask64 (value * m)
  let v2 := mask64 (v1 ^^^ (v1 >>> 47))
  let v3 := mask64 (v2 * m)
  let s1 := mask64 (seed ^^^ v3)
  mask64 (s1 * m)

/-- `version_hash` from src/common/version.py: starting from seed 0, fold
in `hash_value_unsigned` of patch, build, minor, major with
`hash_combine`. -/
def version_hash (major minor build patch : Nat) : Nat :=
  hash_combine
    (hash_combine
      (hash_combine
        (hash_combine 0 (hash_value_unsigned patch))
        (hash_value_unsigned build))
      (hash_value_unsigned minor))
    (hash_value_unsigned major)

/-- `version_hash64` from src/common/version.py: same fold with
`hash_combine64`, masked to 32 bits at the end. -/
def version_hash64 (major minor build patch : Nat) : Nat :=
  mask32 (hash_combine64
    (hash_combine64
      (hash_combine64
        (hash_combine64 0 (hash_value_unsigned patch))
        (hash_value_unsigned build))
      (hash_value_unsigned minor))
    (hash_value_unsigned major))

/-! Spec-side definitions for claim C1: the claim describes `hash_combine`
via 32-bit rotations `rotl17` and `rotl19`; we define the standard rotate
and the claimed combine step from the spec wording. -/

/-- Standard rotate-left by `k` on a 32-bit value (spec wording). -/
def rotl32 (k v : Nat) : Nat := mask32 (v <<< k) ||| (v >>> (32 - k))

/-- The spec's description of the 32-bit combine step:
`x ← x*0xCC9E2D51; x ← rotl17(x); x ← x*0x1B873593; seed ← seed^x;
seed ← rotl19(seed); seed ← seed*5 + 0xE6546B64`. -/
def spec_hash_combine (seed x : Nat) : Nat :=
  let x1 := mask32 (x * 0xCC9E2D51)
  let x2 := rotl32 17 x1
  let x3 := mask32 (x2 * 0x1B873593)
  let s1 := seed ^^^ x3
  let s2 := rotl32 19 s1
  mask32 (s2 * 5 + 0xE6546B64)

/-- The spec's 32-bit version hash: fold `H(patch)`, `H(build)`,
`H(minor)`, `H(major)` in that order into seed 0 with the combine step. -/
def spec_version_hash (major minor build patch : Nat) : Nat :=
  spec_hash_combine
    (spec_hash_combine
      (spec_hash_combine
        (spec_hash_combine 0 (hash_value_unsigned patch))
        (hash_value_unsigned build))
      (hash_value_unsigned minor))
    (hash_value_unsigned major)

/-- The spec's 64-bit variant: same fold order with the 64-bit combine
using multiplier 0xC6A4A7935BD1E995, truncated to 32 bits at the end. -/
def spec_version_hash64 (major minor build patch : Nat) : Nat :=
  mask32 (hash_combine64
    (hash_combine64
      (hash_combine64
        (hash_combine64 0 (hash_value_unsigned patch))
        (hash_value_unsigned build))
      (hash_value_unsigned minor))
    (hash_value_unsigned major))

/-! Bitwise helper lemmas. -/

theorem lor_mod_two_pow (a b n : Nat) :
    (a ||| b) % 2 ^ n = (a % 2 ^ n) ||| (b % 2 ^ n) := by
  apply Nat.eq_of_testBit_eq
  intro i
  simp [Nat.testBit_mod_two_pow, Nat.testBit_or, Bool.and_or_distrib_left]

theorem rotl32_eq_code (k v : Nat) (hv : v < 2 ^ 32) :
    mask32 ((v >>> (32 - k)) ||| (v <<< k)) = rotl32 k v := by
  have h1 : v >>> (32 - k) < 2 ^ 32 := by
    rw [Nat.shiftRight_eq_div_pow]
    exact lt_of_le_of_lt (Nat.div_le_self _ _) hv
  unfold mask32 rotl32
  rw [lor_mod_two_pow, Nat.mod_eq_of_lt h1, Nat.lor_comm]
  rfl

theorem hash_combine_eq_spec (seed value : Nat) (hs : seed < 2 ^ 32) :
    hash_combine seed value = spec_hash_combine seed value := by
  simp only [hash_combine, spec_hash_combine]
  have h1 : mask32 (value * 0xCC9E2D51) < 2 ^ 32 := Nat.mod_lt _ (by norm_num)
  rw [show (15 : Nat) = 32 - 17 by norm_num, rotl32_eq_code 17 _ h1]
  have h2 : mask32 (rotl32 17 (mask32 (value * 0xCC9E2D51)) * 0x1B873593) < 2 ^ 32 :=
    Nat.mod_lt _ (by norm_num)
  have h3 : seed ^^^ mask32 (rotl32 17 (mask32 (value * 0xCC9E2D51)) * 0x1B873593) < 2 ^ 32 :=
    Nat.xor_lt_two_pow hs h2
  rw [show (13 : Nat) = 32 - 19 by norm_num, rotl32_eq_code 19 _ h3]

theorem hash_combine_lt (seed value : Nat) : hash_combine seed value < 2 ^ 32 :=
  Nat.mod_lt _ (by norm_num)

end JscDecompiler

namespace JscDecompiler

/-- C1.  For every tuple (major, minor, build, patch) of unsigned 32-bit
integers, the 32-bit version hash equals the fold of
`hash_value_unsigned` of patch, build, minor, major, in that order, into
seed 0 with the rotl17/rotl19 combine step described by the spec, and the
64-bit variant folds in the same order with multiplier 0xC6A4A7935BD1E995
truncating the final seed to 32 bits. -/
theorem version_hash_spec_ok (major minor build patch : Nat)
    (h1 : major < 2 ^ 32) (h2 : minor < 2 ^ 32)
    (h3 : build < 2 ^ 32) (h4 : patch < 2 ^ 32) :
    version_hash major minor build patch =
      spec_version_hash major minor build patch ∧
    version_hash64 major minor build patch =
      spec_version_hash64 major minor build patch := by
  constructor
  · unfold version_hash spec_version_hash
    rw [hash_combine_eq_spec _ (hash_value_unsigned major) (hash_combine_lt _ _),
        hash_combine_eq_spec _ (hash_value_unsigned minor) (hash_combine_lt _ _),
        hash_combine_eq_spec _ (hash_value_unsigned build) (hash_combine_lt _ _),
        hash_combine_eq_spec 0 (hash_value_unsigned patch) (by norm_num)]
  · rfl

/-- C1 witness: the theorem applied at the concrete version 8.9.255.25. -/
theorem version_hash_spec_ok_witness :
    version_hash 8 9 255 25 = spec_version_hash 8 9 255 25 ∧
    version_hash64 8 9 255 25 = spec_version_hash64 8 9 255 25 :=
  version_hash_spec_ok 8 9 255 25 (by norm_num) (by norm_num) (by norm_num)
    (by norm_num)

/-! ## Embedding of the binary reader and `_read_int` (src/v6/parser.py) -/

/-- Byte access into the input buffer.  Out-of-range reads are never
performed by the embedded code paths unless guarded, so the default 0
never leaks into a result. -/
def byteAt (data : List Nat) (i : Nat) : Nat := data.getD i 0

/-- `struct.unpack_from("<I", data, pos)`: the little-endian u32 at
`pos`. -/
def readUint32LE (data : List Nat) (pos : Nat) : Nat :=
  byteAt data pos + 2 ^ 8 * byteAt data (pos + 1) +
    2 ^ 16 * byteAt data (pos + 2) + 2 ^ 24 * byteAt data (pos + 3)

/-- Python exceptions raised by the embedded parser fragments. -/
inductive PyError where
  | structError : PyError
  | valueError : String → PyError
deriving DecidableEq

/-- `JscParser._read_int` from src/v6/parser.py: read a u32, use its low
2 bits as a byte count `n`, rewind `4 - n` bytes, mask to `n*8` bits and
shift right by 2.  Returns the value and the new read position;
`struct.unpack_from` raises when fewer than 4 bytes remain. -/
def read_int (data : List Nat) (pos : Nat) : Except PyError (Nat × Nat) :=
  if pos + 4 ≤ data.length then
    let answer := readUint32LE data pos
    let bytes_count := (answer &&& 3) + 1
    let pos2 := pos + 4 - (4 - bytes_count)
    let mask := 0xFFFFFFFF >>> (32 - (bytes_count <<< 3))
    .ok ((answer &&& mask) >>> 2, pos2)
  else .error .structError

/-- Claim-side definition: the minimal byte width of the varint encoding
of `m` (the value `(m << 2) | (n-1)` must fit in `n` bytes). -/
def minVarintBytes (m : Nat) : Nat :=
  if m < 2 ^ 6 then 1 else if m < 2 ^ 14 then 2 else if m < 2 ^ 22 then 3 else 4

/-- Little-endian byte decomposition of `v` into `n` bytes. -/
def leBytes : Nat → Nat → List Nat
  | 0, _ => []
  | n + 1, v => v % 256 :: leBytes n (v / 256)

/-- Claim-side definition: the minimal-width varint encoding of `m`,
packing the width tag `n - 1` into the low 2 bits. -/
def encodeVarint (m : Nat) : List Nat :=
  leBytes (minVarintBytes m) ((m <<< 2) ||| (minVarintBytes m - 1))

theorem and_three_eq_mod (w : Nat) : w &&& 3 = w % 4 := by
  have h := Nat.and_pow_two_sub_one_eq_mod w 2
  norm_num at h
  exact h

theorem byteAt_lt (data : List Nat) (i : Nat)
    (h : ∀ b ∈ data, b < 256) : byteAt data i < 256 := by
  unfold byteAt
  rw [List.getD_eq_getElem?_getD]
  rcases Nat.lt_or_ge i data.length with hi | hi
  · rw [List.getElem?_eq_getElem hi]
    exact h _ (List.getElem_mem hi)
  · rw [List.getElem?_eq_none hi]
    norm_num

/-- A helper equational form of `_read_int` under the claim's
hypothesis that four bytes are available. -/
theorem read_int_formula (data : List Nat) (pos : Nat)
    (h : pos + 4 ≤ data.length) :
    read_int data pos =
      .ok ((readUint32LE data pos % 2 ^ (8 * (readUint32LE data pos % 4 + 1))) >>> 2,
        pos + (readUint32LE data pos % 4 + 1)) := by
  unfold read_int
  rw [if_pos h]
  simp only [and_three_eq_mod, Except.ok.injEq, Prod.mk.injEq]
  refine ⟨?_, by omega⟩
  have hcase : readUint32LE data pos % 4 = 0 ∨ readUint32LE data pos % 4 = 1 ∨
      readUint32LE data pos % 4 = 2 ∨ readUint32LE data pos % 4 = 3 := by omega
  rcases hcase with h0 | h0 | h0 | h0 <;> rw [h0]
  · rw [show (0xFFFFFFFF : Nat) >>> (32 - (0 + 1) <<< 3) = 2 ^ 8 - 1 from by
      norm_num [Nat.shiftLeft_eq, Nat.shiftRight_eq_div_pow]]
    rw [Nat.and_pow_two_sub_one_eq_mod]
  · rw [show (0xFFFFFFFF : Nat) >>> (32 - (1 + 1) <<< 3) = 2 ^ 16 - 1 from by
      norm_num [Nat.shiftLeft_eq, Nat.shiftRight_eq_div_pow]]
    rw [Nat.and_pow_two_sub_one_eq_mod]
  · rw [show (0xFFFFFFFF : Nat) >>> (32 - (2 + 1) <<< 3) = 2 ^ 24 - 1 from by
      norm_num [Nat.shiftLeft_eq, Nat.shiftRight_eq_div_pow]]
    rw [Nat.and_pow_two_sub_one_eq_mod]
  · rw [show (0xFFFFFFFF : Nat) >>> (32 - (3 + 1) <<< 3) = 2 ^ 32 - 1 from by
      norm_num [Nat.shiftLeft_eq, Nat.shiftRight_eq_div_pow]]
    rw [Nat.and_pow_two_sub_one_eq_mod]

/-- A minimal-width encoding placed before arbitrary further stream
bytes decodes to `v / 4` and consumes exactly `n` bytes. -/
theorem read_int_leBytes (n v : Nat) (rest : List Nat)
    (hn : 1 ≤ n) (hn4 : n ≤ 4) (hv : v < 2 ^ (8 * n)) (hv4 : v % 4 = n - 1)
    (hrest : ∀ b ∈ rest, b < 256) (hlen : 3 ≤ rest.length) :
    read_int (leBytes n v ++ rest) 0 = .ok (v / 4, n) := by
  have hb0 : byteAt rest 0 < 256 := byteAt_lt _ _ hrest
  have hb1 : byteAt rest 1 < 256 := byteAt_lt _ _ hrest
  have hb2 : byteAt rest 2 < 256 := byteAt_lt _ _ hrest
  interval_cases n
  · rw [read_int_formula _ 0 (by simp [leBytes] <;> omega)]
    have hw : readUint32LE (leBytes 1 v ++ rest) 0 =
        v % 256 + 2 ^ 8 * byteAt rest 0 + 2 ^ 16 * byteAt rest 1 +
          2 ^ 24 * byteAt rest 2 := by
      simp [readUint32LE, byteAt, leBytes]
    norm_num at hv
    have hw4 : readUint32LE (leBytes 1 v ++ rest) 0 % 4 = 0 := by
      rw [hw]; omega
    rw [hw4, hw]
    norm_num [Nat.shiftRight_eq_div_pow]
    omega
  · rw [read_int_formula _ 0 (by simp [leBytes] <;> omega)]
    have hw : readUint32LE (leBytes 2 v ++ rest) 0 =
        v % 256 + 2 ^ 8 * (v / 256 % 256) + 2 ^ 16 * byteAt rest 0 +
          2 ^ 24 * byteAt rest 1 := by
      simp [readUint32LE, byteAt, leBytes]
    norm_num at hv
    have hw4 : readUint32LE (leBytes 2 v ++ rest) 0 % 4 = 1 := by
      rw [hw]; omega
    rw [hw4, hw]
    norm_num [Nat.shiftRight_eq_div_pow]
    omega
  · rw [read_int_formula _ 0 (by simp [leBytes] <;> omega)]
    have hw : readUint32LE (leBytes 3 v ++ rest) 0 =
        v % 256 + 2 ^ 8 * (v / 256 % 256) + 2 ^ 16 * (v / 256 / 256 % 256) +
          2 ^ 24 * byteAt rest 0 := by
      simp [readUint32LE, byteAt, leBytes]
    norm_num at hv
    have hw4 : readUint32LE (leBytes 3 v ++ rest) 0 % 4 = 2 := by
      rw [hw]; omega
    rw [hw4, hw]
    norm_num [Nat.shiftRight_eq_div_pow]
    omega
  · rw [read_int_formula _ 0 (by simp [leBytes] <;> omega)]
    have hw : readUint32LE (leBytes 4 v ++ rest) 0 =
        v % 256 + 2 ^ 8 * (v / 256 % 256) + 2 ^ 16 * (v / 256 / 256 % 256) +
          2 ^ 24 * (v / 256 / 256 / 256 % 256) := by
      simp [readUint32LE, byteAt, leBytes]
    norm_num at hv
    have hw4 : readUint32LE (leBytes 4 v ++ rest) 0 % 4 = 3 := by
      rw [hw]; omega
    rw [hw4, hw]
    norm_num [Nat.shiftRight_eq_div_pow]
    omega

end JscDecompiler

namespace JscDecompiler

/-- C2.  With four bytes available, `_read_int` returns the u32 `w`
masked to `n*8` bits and shifted right by 2, where `n = (w & 3) + 1`,
and advances the position by exactly `n`; and every `m < 2^30` with its
minimal-width encoding decodes back to `m`, consuming between 1 and 4
bytes. -/
theorem read_int_ok :
    (∀ (data : List Nat) (pos : Nat), pos + 4 ≤ data.length →
      read_int data pos =
        .ok ((readUint32LE data pos % 2 ^ (8 * (readUint32LE data pos % 4 + 1))) >>> 2,
          pos + (readUint32LE data pos % 4 + 1))) ∧
    (∀ (m : Nat) (rest : List Nat), m < 2 ^ 30 → (∀ b ∈ rest, b < 256) →
      3 ≤ rest.length →
      read_int (encodeVarint m ++ rest) 0 = .ok (m, minVarintBytes m) ∧
        1 ≤ minVarintBytes m ∧ minVarintBytes m ≤ 4) := by
  constructor
  · exact read_int_formula
  · intro m rest hm hrest hlen
    have hn1 : 1 ≤ minVarintBytes m := by
      unfold minVarintBytes
      split <;> [skip; split <;> [skip; split]] <;> norm_num
    have hn4 : minVarintBytes m ≤ 4 := by
      unfold minVarintBytes
      split <;> [skip; split <;> [skip; split]] <;> norm_num
    refine ⟨?_, hn1, hn4⟩
    have hor : (m <<< 2) ||| (minVarintBytes m - 1) = m * 4 + (minVarintBytes m - 1) := by
      rw [Nat.shiftLeft_eq, Nat.mul_comm m (2 ^ 2),
        ← Nat.mul_add_lt_is_or (show minVarintBytes m - 1 < 2 ^ 2 by omega) m]
    have hfit : m * 4 + (minVarintBytes m - 1) < 2 ^ (8 * minVarintBytes m) := by
      unfold minVarintBytes
      split <;> [skip; split <;> [skip; split]] <;> norm_num <;> omega
    have hdiv : (m * 4 + (minVarintBytes m - 1)) / 4 = m := by omega
    have hmod : (m * 4 + (minVarintBytes m - 1)) % 4 = minVarintBytes m - 1 := by
      omega
    have := read_int_leBytes (minVarintBytes m) (m * 4 + (minVarintBytes m - 1))
      rest hn1 hn4 hfit hmod hrest hlen
    rw [hdiv] at this
    unfold encodeVarint
    rw [hor]
    exact this

end JscDecompiler

namespace JscDecompiler

/-- C2 witness: the theorem applied at a concrete stream and at the
round-trip of the value 5 (and of a 2-byte value through the width
computation, implicitly). -/
theorem read_int_ok_witness :
    read_int [4, 7, 7, 7] 0 =
      .ok ((readUint32LE [4, 7, 7, 7] 0 % 2 ^ (8 * (readUint32LE [4, 7, 7, 7] 0 % 4 + 1))) >>> 2,
        0 + (readUint32LE [4, 7, 7, 7] 0 % 4 + 1)) ∧
    (read_int (encodeVarint 5 ++ [9, 9, 9]) 0 = .ok (5, minVarintBytes 5) ∧
      1 ≤ minVarintBytes 5 ∧ minVarintBytes 5 ≤ 4) :=
  ⟨read_int_ok.1 [4, 7, 7, 7] 0 (by norm_num),
   read_int_ok.2 5 [9, 9, 9] (by norm_num) (by decide) (by norm_num)⟩

/-! ## Back-reference decoding (src/v6/parser.py) -/

/-- `kPointerSizeLog2` from `JscParser.__init__`: 2 in 32-bit mode, 3 in
64-bit mode. -/
def kPointerSizeLog2 (is32 : Bool) : Nat := if is32 then 2 else 3

/-- `kObjectAlignmentBits` from `JscParser.__init__` (equals
`kPointerSizeLog2`). -/
def kObjectAlignmentBits (is32 : Bool) : Nat := kPointerSizeLog2 is32

/-- The chunk-index / chunk-offset extraction of
`JscParser._get_back_referenced_object` (the non-LO, non-MAP branch). -/
def decode_back_ref (is32 : Bool) (back_ref : Nat) : Nat × Nat :=
  if is32 then
    ((back_ref &&& 0x1FFE0000) >>> 0x11,
      (back_ref &&& 0x1FFFF) <<< kObjectAlignmentBits true)
  else
    ((back_ref &&& 0x1FFF0000) >>> 0x10,
      (back_ref &&& 0xFFFF) <<< kObjectAlignmentBits false)

/-- Claim-side definition: the canonical packing of a chunk index `c` and
an aligned chunk offset `o` into a back-reference word (32-bit mode shifts
the index by 17 and stores `o / 4`; 64-bit shifts by 16 and stores
`o / 8`). -/
def encode_back_ref (is32 : Bool) (c o : Nat) : Nat :=
  if is32 then c * 2 ^ 17 + o / 4 else c * 2 ^ 16 + o / 8

theorem and_shiftLeft_shiftRight (x y s : Nat) :
    (x &&& (y <<< s)) >>> s = (x >>> s) &&& y := by
  apply Nat.eq_of_testBit_eq
  intro i
  simp only [Nat.testBit_shiftRight, Nat.testBit_and, Nat.testBit_shiftLeft]
  have h1 : s ≤ s + i := Nat.le_add_right s i
  simp [h1, Nat.add_sub_cancel_left]

end JscDecompiler

namespace JscDecompiler

/-- C3.  The deserializer decodes a back-reference word with the masked
shift formulas of the claim (offset shift = log2 of the pointer size),
and those formulas recover every representable (chunk index, offset)
pair from its encoded back-reference. -/
theorem decode_back_ref_ok :
    (∀ ref, decode_back_ref true ref =
        ((ref &&& 0x1FFE0000) >>> 17, (ref &&& 0x1FFFF) <<< 2) ∧
      decode_back_ref false ref =
        ((ref &&& 0x1FFF0000) >>> 16, (ref &&& 0xFFFF) <<< 3)) ∧
    (∀ c o, c < 2 ^ 12 → o < 2 ^ 19 → o % 4 = 0 →
      decode_back_ref true (encode_back_ref true c o) = (c, o)) ∧
    (∀ c o, c < 2 ^ 13 → o < 2 ^ 19 → o % 8 = 0 →
      decode_back_ref false (encode_back_ref false c o) = (c, o)) := by
  refine ⟨fun ref => ⟨rfl, rfl⟩, ?_, ?_⟩
  · intro c o hc ho hal
    unfold decode_back_ref encode_back_ref kObjectAlignmentBits kPointerSizeLog2
    simp only [if_pos rfl, reduceIte]
    have e1 : (0x1FFE0000 : Nat) = 0xFFF <<< 17 := by decide
    have e2 : (0x1FFFF : Nat) = 2 ^ 17 - 1 := by decide
    rw [e1, and_shiftLeft_shiftRight, e2, Nat.and_pow_two_sub_one_eq_mod,
      Nat.shiftRight_eq_div_pow, Nat.shiftLeft_eq]
    have h12 : (0xFFF : Nat) = 2 ^ 12 - 1 := by decide
    rw [h12, Nat.and_pow_two_sub_one_eq_mod]
    have hdiv : (c * 2 ^ 17 + o / 4) / 2 ^ 17 = c := by omega
    have hmod : (c * 2 ^ 17 + o / 4) % 2 ^ 17 = o / 4 := by omega
    rw [hdiv, hmod, Nat.mod_eq_of_lt hc]
    simp only [Prod.mk.injEq, true_and]
    omega
  · intro c o hc ho hal
    unfold decode_back_ref encode_back_ref kObjectAlignmentBits kPointerSizeLog2
    simp only [Bool.false_eq_true, if_false, reduceIte]
    have e1 : (0x1FFF0000 : Nat) = 0x1FFF <<< 16 := by decide
    have e2 : (0xFFFF : Nat) = 2 ^ 16 - 1 := by decide
    rw [e1, and_shiftLeft_shiftRight, e2, Nat.and_pow_two_sub_one_eq_mod,
      Nat.shiftRight_eq_div_pow, Nat.shiftLeft_eq]
    have h13 : (0x1FFF : Nat) = 2 ^ 13 - 1 := by decide
    rw [h13, Nat.and_pow_two_sub_one_eq_mod]
    have hdiv : (c * 2 ^ 16 + o / 8) / 2 ^ 16 = c := by omega
    have hmod : (c * 2 ^ 16 + o / 8) % 2 ^ 16 = o / 8 := by omega
    rw [hdiv, hmod, Nat.mod_eq_of_lt hc]
    simp only [Prod.mk.injEq, true_and]
    omega

/-- C3 witness: the theorem applied at chunk index 5, offset 64 in both
pointer modes. -/
theorem decode_back_ref_ok_witness :
    decode_back_ref true (encode_back_ref true 5 64) = (5, 64) ∧
    decode_back_ref false (encode_back_ref false 5 64) = (5, 64) :=
  ⟨decode_back_ref_ok.2.1 5 64 (by norm_num) (by norm_num) (by norm_num),
   decode_back_ref_ok.2.2 5 64 (by norm_num) (by norm_num) (by norm_num)⟩

end JscDecompiler

namespace JscDecompiler

/-! ## Embedding of the ScopeInfo flag enums (src/common/enums.py) -/

/-- `ScopeInfoFlagsScope` from src/common/enums.py. -/
inductive ScopeInfoFlagsScope where
  | EVAL_SCOPE | FUNCTION_SCOPE | MODULE_SCOPE | SCRIPT_SCOPE
  | CATCH_SCOPE | BLOCK_SCOPE | WITH_SCOPE
deriving DecidableEq

/-- `ScopeInfoFlagsScope.from_int`: first member with the given value,
`None` otherwise. -/
def ScopeInfoFlagsScope.fromInt (v : Nat) : Option ScopeInfoFlagsScope :=
  if v = 0 then some .EVAL_SCOPE
  else if v = 1 then some .FUNCTION_SCOPE
  else if v = 2 then some .MODULE_SCOPE
  else if v = 3 then some .SCRIPT_SCOPE
  else if v = 4 then some .CATCH_SCOPE
  else if v = 5 then some .BLOCK_SCOPE
  else if v = 6 then some .WITH_SCOPE
  else none

/-- `ScopeInfoFlagsReceiver` from src/common/enums.py. -/
inductive ScopeInfoFlagsReceiver where
  | NONE | STACK | CONTEXT | UNUSED
deriving DecidableEq

/-- `ScopeInfoFlagsReceiver.from_int`. -/
def ScopeInfoFlagsReceiver.fromInt (v : Nat) : Option ScopeInfoFlagsReceiver :=
  if v = 0 then some .NONE
  else if v = 1 then some .STACK
  else if v = 2 then some .CONTEXT
  else if v = 3 then some .UNUSED
  else none

/-- `ScopeInfoFlagsFuncVar` from src/common/enums.py. -/
inductive ScopeInfoFlagsFuncVar where
  | NONE | STACK | CONTEXT | UNUSED
deriving DecidableEq

/-- `ScopeInfoFlagsFuncVar.from_int`. -/
def ScopeInfoFlagsFuncVar.fromInt (v : Nat) : Option ScopeInfoFlagsFuncVar :=
  if v = 0 then some .NONE
  else if v = 1 then some .STACK
  else if v = 2 then some .CONTEXT
  else if v = 3 then some .UNUSED
  else none

/-- `ScopeInfoFlagsLang` from src/common/enums.py. -/
inductive ScopeInfoFlagsLang where
  | SLOPPY | STRICT
deriving DecidableEq

/-- `ScopeInfoFlagsLang.from_int`. -/
def ScopeInfoFlagsLang.fromInt (v : Nat) : Option ScopeInfoFlagsLang :=
  if v = 0 then some .SLOPPY
  else if v = 1 then some .STRICT
  else none

/-- `ScopeInfoFlagsFuncKind` from src/common/enums.py (declaration
order preserved, as `from_int` scans members in order). -/
inductive ScopeInfoFlagsFuncKind where
  | NormalFunction | ArrowFunction | GeneratorFunction | ConciseMethod
  | ConciseGeneratorMethod | DefaultConstructor | DerivedConstructor
  | BaseConstructor | GetterFunction | SetterFunction | AsyncFunction
  | Module | AccessorFunction | DefaultBaseConstructor
  | DefaultDerivedConstructor | ClassConstructor | AsyncArrowFunction
  | AsyncConciseMethod | AsyncConciseGeneratorMethod | AsyncGeneratorFunction
deriving DecidableEq

/-- `ScopeInfoFlagsFuncKind.from_int`: member values from the Python
enum, scanned in declaration order. -/
def ScopeInfoFlagsFuncKind.fromInt (v : Nat) : Option ScopeInfoFlagsFuncKind :=
  if v = 0 then some .NormalFunction
  else if v = 1 then some .ArrowFunction
  else if v = 2 then some .GeneratorFunction
  else if v = 4 then some .ConciseMethod
  else if v = 6 then some .ConciseGeneratorMethod
  else if v = 8 then some .DefaultConstructor
  else if v = 16 then some .DerivedConstructor
  else if v = 32 then some .BaseConstructor
  else if v = 64 then some .GetterFunction
  else if v = 128 then some .SetterFunction
  else if v = 256 then some .AsyncFunction
  else if v = 512 then some .Module
  else if v = 192 then some .AccessorFunction
  else if v = 40 then some .DefaultBaseConstructor
  else if v = 24 then some .DefaultDerivedConstructor
  else if v = 56 then some .ClassConstructor
  else if v = 257 then some .AsyncArrowFunction
  else if v = 260 then some .AsyncConciseMethod
  else if v = 262 then some .AsyncConciseGeneratorMethod
  else if v = 258 then some .AsyncGeneratorFunction
  else none

/-- The decoded flag record built by `ScopeInfoFlags.__init__`. -/
structure ScopeInfoFlags where
  scope : Option ScopeInfoFlagsScope
  calls_sloppy_eval : Bool
  lang_mode : Option ScopeInfoFlagsLang
  declaration_scope : Bool
  recv : Option ScopeInfoFlagsReceiver
  has_new_target : Bool
  func_var : Option ScopeInfoFlagsFuncVar
  asm_module : Bool
  has_simple_parameters : Bool
  kind : Option ScopeInfoFlagsFuncKind
  has_outer_scope_info : Bool
  is_debug_evaluate_scope : Bool
deriving DecidableEq

/-- `ScopeInfoFlags.__init__` from src/common/enums.py: the mask-and-shift
field extractions. -/
def mkScopeInfoFlags (flags : Nat) : ScopeInfoFlags where
  scope := ScopeInfoFlagsScope.fromInt (flags &&& 0xF)
  calls_sloppy_eval := (flags &&& 0x10) >>> 0x04 != 0
  lang_mode := ScopeInfoFlagsLang.fromInt ((flags &&& 0x20) >>> 0x05)
  declaration_scope := (flags &&& 0x40) >>> 0x06 != 0
  recv := ScopeInfoFlagsReceiver.fromInt ((flags &&& 0x180) >>> 0x07)
  has_new_target := (flags &&& 0x200) >>> 0x09 != 0
  func_var := ScopeInfoFlagsFuncVar.fromInt ((flags &&& 0xC00) >>> 0x0A)
  asm_module := (flags &&& 0x1000) >>> 0x0C != 0
  has_simple_parameters := (flags &&& 0x2000) >>> 0x0D != 0
  kind := ScopeInfoFlagsFuncKind.fromInt ((flags &&& 0x00FFC000) >>> 0x0E)
  has_outer_scope_info := (flags &&& 0x01000000) >>> 0x18 != 0
  is_debug_evaluate_scope := (flags &&& 0x02000000) >>> 0x19 != 0

theorem bitfield_extract (x s k : Nat) :
    (x &&& ((2 ^ k - 1) <<< s)) >>> s = x / 2 ^ s % 2 ^ k := by
  rw [and_shiftLeft_shiftRight, Nat.and_pow_two_sub_one_eq_mod,
    Nat.shiftRight_eq_div_pow]

end JscDecompiler

namespace JscDecompiler

/-- C7.  For every 26-bit flags word, the decoded ScopeInfo flag fields
equal the bit-field extractions at positions 0..3 (scope kind),
4 (calls-sloppy-eval), 5 (language mode), 6 (declaration scope),
7..8 (receiver mode), 9 (has-new-target), 10..11 (function-variable
mode), 12 (asm-module), 13 (simple-parameters), 14..23 (function kind),
24 (outer-scope-present) and 25 (debug-evaluate). -/
theorem mkScopeInfoFlags_ok (flags : Nat) (h : flags < 2 ^ 26) :
    (mkScopeInfoFlags flags).scope = ScopeInfoFlagsScope.fromInt (flags % 2 ^ 4) ∧
    (mkScopeInfoFlags flags).calls_sloppy_eval = (flags / 2 ^ 4 % 2 != 0) ∧
    (mkScopeInfoFlags flags).lang_mode = ScopeInfoFlagsLang.fromInt (flags / 2 ^ 5 % 2) ∧
    (mkScopeInfoFlags flags).declaration_scope = (flags / 2 ^ 6 % 2 != 0) ∧
    (mkScopeInfoFlags flags).recv = ScopeInfoFlagsReceiver.fromInt (flags / 2 ^ 7 % 2 ^ 2) ∧
    (mkScopeInfoFlags flags).has_new_target = (flags / 2 ^ 9 % 2 != 0) ∧
    (mkScopeInfoFlags flags).func_var = ScopeInfoFlagsFuncVar.fromInt (flags / 2 ^ 10 % 2 ^ 2) ∧
    (mkScopeInfoFlags flags).asm_module = (flags / 2 ^ 12 % 2 != 0) ∧
    (mkScopeInfoFlags flags).has_simple_parameters = (flags / 2 ^ 13 % 2 != 0) ∧
    (mkScopeInfoFlags flags).kind = ScopeInfoFlagsFuncKind.fromInt (flags / 2 ^ 14 % 2 ^ 10) ∧
    (mkScopeInfoFlags flags).has_outer_scope_info = (flags / 2 ^ 24 % 2 != 0) ∧
    (mkScopeInfoFlags flags).is_debug_evaluate_scope = (flags / 2 ^ 25 % 2 != 0) := by
  have h4 : flags &&& 0xF = flags % 2 ^ 4 := by
    have e : (0xF : Nat) = 2 ^ 4 - 1 := by norm_num
    rw [e, Nat.and_pow_two_sub_one_eq_mod]
  have h10 : (flags &&& 0x10) >>> 0x04 = flags / 2 ^ 4 % 2 := by
    have e := bitfield_extract flags 4 1
    norm_num [Nat.shiftLeft_eq] at e
    exact e
  have h20 : (flags &&& 0x20) >>> 0x05 = flags / 2 ^ 5 % 2 := by
    have e := bitfield_extract flags 5 1
    norm_num [Nat.shiftLeft_eq] at e
    exact e
  have h40 : (flags &&& 0x40) >>> 0x06 = flags / 2 ^ 6 % 2 := by
    have e := bitfield_extract flags 6 1
    norm_num [Nat.shiftLeft_eq] at e
    exact e
  have h180 : (flags &&& 0x180) >>> 0x07 = flags / 2 ^ 7 % 2 ^ 2 := by
    have e := bitfield_extract flags 7 2
    norm_num [Nat.shiftLeft_eq] at e
    exact e
  have h200 : (flags &&& 0x200) >>> 0x09 = flags / 2 ^ 9 % 2 := by
    have e := bitfield_extract flags 9 1
    norm_num [Nat.shiftLeft_eq] at e
    exact e
  have hC00 : (flags &&& 0xC00) >>> 0x0A = flags / 2 ^ 10 % 2 ^ 2 := by
    have e := bitfield_extract flags 10 2
    norm_num [Nat.shiftLeft_eq] at e
    exact e
  have h1000 : (flags &&& 0x1000) >>> 0x0C = flags / 2 ^ 12 % 2 := by
    have e := bitfield_extract flags 12 1
    norm_num [Nat.shiftLeft_eq] at e
    exact e
  have h2000 : (flags &&& 0x2000) >>> 0x0D = flags / 2 ^ 13 % 2 := by
    have e := bitfield_extract flags 13 1
    norm_num [Nat.shiftLeft_eq] at e
    exact e
  have hFFC : (flags &&& 0x00FFC000) >>> 0x0E = flags / 2 ^ 14 % 2 ^ 10 := by
    have e := bitfield_extract flags 14 10
    norm_num [Nat.shiftLeft_eq] at e
    exact e
  have h1M : (flags &&& 0x01000000) >>> 0x18 = flags / 2 ^ 24 % 2 := by
    have e := bitfield_extract flags 24 1
    norm_num [Nat.shiftLeft_eq] at e
    exact e
  have h2M : (flags &&& 0x02000000) >>> 0x19 = flags / 2 ^ 25 % 2 := by
    have e := bitfield_extract flags 25 1
    norm_num [Nat.shiftLeft_eq] at e
    exact e
  simp only [mkScopeInfoFlags, h4, h10, h20, h40, h180, h200, hC00, h1000,
    h2000, hFFC, h1M, h2M]
  simp only [true_and, and_self]

/-- C7 witness: the theorem applied at the concrete flags word
0x2ABCDEF (all field groups populated). -/
theorem mkScopeInfoFlags_ok_witness :
    (mkScopeInfoFlags 0x2ABCDEF).scope = ScopeInfoFlagsScope.fromInt (0x2ABCDEF % 2 ^ 4) ∧
    (mkScopeInfoFlags 0x2ABCDEF).calls_sloppy_eval = (0x2ABCDEF / 2 ^ 4 % 2 != 0) ∧
    (mkScopeInfoFlags 0x2ABCDEF).lang_mode = ScopeInfoFlagsLang.fromInt (0x2ABCDEF / 2 ^ 5 % 2) ∧
    (mkScopeInfoFlags 0x2ABCDEF).declaration_scope = (0x2ABCDEF / 2 ^ 6 % 2 != 0) ∧
    (mkScopeInfoFlags 0x2ABCDEF).recv = ScopeInfoFlagsReceiver.fromInt (0x2ABCDEF / 2 ^ 7 % 2 ^ 2) ∧
    (mkScopeInfoFlags 0x2ABCDEF).has_new_target = (0x2ABCDEF / 2 ^ 9 % 2 != 0) ∧
    (mkScopeInfoFlags 0x2ABCDEF).func_var = ScopeInfoFlagsFuncVar.fromInt (0x2ABCDEF / 2 ^ 10 % 2 ^ 2) ∧
    (mkScopeInfoFlags 0x2ABCDEF).asm_module = (0x2ABCDEF / 2 ^ 12 % 2 != 0) ∧
    (mkScopeInfoFlags 0x2ABCDEF).has_simple_parameters = (0x2ABCDEF / 2 ^ 13 % 2 != 0) ∧
    (mkScopeInfoFlags 0x2ABCDEF).kind = ScopeInfoFlagsFuncKind.fromInt (0x2ABCDEF / 2 ^ 14 % 2 ^ 10) ∧
    (mkScopeInfoFlags 0x2ABCDEF).has_outer_scope_info = (0x2ABCDEF / 2 ^ 24 % 2 != 0) ∧
    (mkScopeInfoFlags 0x2ABCDEF).is_debug_evaluate_scope = (0x2ABCDEF / 2 ^ 25 % 2 != 0) :=
  mkScopeInfoFlags_ok 0x2ABCDEF (by norm_num)

end JscDecompiler

namespace JscDecompiler

/-! ## Python `%X` formatting helpers -/

/-- One uppercase hex digit. -/
def hexDigit (n : Nat) : Char :=
  if n < 10 then Char.ofNat (48 + n) else Char.ofNat (55 + n)

/-- Hex digits of `n`, most significant first (fuel-based structural
recursion; enough fuel makes it total). -/
def hexDigitsFuel : Nat → Nat → List Char
  | 0, _ => []
  | _ + 1, 0 => []
  | f + 1, n => hexDigitsFuel f (n / 16) ++ [hexDigit (n % 16)]

/-- Python `"%X" % n` for a non-negative `n`. -/
def toHexUpper (n : Nat) : String :=
  if n = 0 then "0" else String.mk (hexDigitsFuel (n + 1) n)

/-- Zero-pad a string on the left to width `w`. -/
def padLeftZeros (s : String) (w : Nat) : String :=
  String.mk (List.replicate (w - s.length) '0') ++ s

/-- Python `"%0wX" % i` including the sign behaviour for negative
values (the sign counts towards the width). -/
def pyHexPad (w : Nat) (i : Int) : String :=
  if i < 0 then "-" ++ padLeftZeros (toHexUpper i.natAbs) (w - 1)
  else padLeftZeros (toHexUpper i.toNat) w

/-! ## Embedding of `main` routing (src/jsc_decompiler.py) -/

/-- `_MAGIC_V8_LEGACY` from src/jsc_decompiler.py. -/
def MAGIC_V8_LEGACY : List Nat := [0xC0DE0BEE, 0xC0DE03BE]

/-- `_MAGIC_V8_MODERN` from src/jsc_decompiler.py. -/
def MAGIC_V8_MODERN : List Nat := [0xC0DE0628]

/-- `_ALL_MAGIC` from src/jsc_decompiler.py. -/
def ALL_MAGIC : List Nat := MAGIC_V8_LEGACY ++ MAGIC_V8_MODERN

/-- The observable outcome of `main` up to the format routing decision:
either the process exits with a status and a stderr message, or control
reaches `_run_legacy_pipeline` with the accepted magic. -/
inductive RouteResult where
  | exit (status : Nat) (stderrMsg : String)
  | pipeline (magic : Nat)
deriving DecidableEq

/-- The stderr text of the modern-format rejection (three `print`
calls in src/jsc_decompiler.py, joined by newlines). -/
def modernFormatMsg : String :=
  "Error: This file was compiled with Node.js 22+ (V8 12.x).\n" ++
    "Node 22 support is available separately.\n" ++
    "Contact: Girishx3@gmail.com"

/-- The size / magic routing of `main` from src/jsc_decompiler.py
(lines 130-147): reject short files, reject unknown magics, reject the
modern magic with the Node 22 message, and otherwise enter the legacy
pipeline. -/
def mainRoute (data : List Nat) : RouteResult :=
  if data.length < 8 then .exit 1 "Error: File too small"
  else if readUint32LE data 0 ∉ ALL_MAGIC then
    .exit 1 ("Error: Invalid JSC magic: 0x" ++ pyHexPad 8 (readUint32LE data 0))
  else if readUint32LE data 0 ∈ MAGIC_V8_MODERN then .exit 1 modernFormatMsg
  else .pipeline (readUint32LE data 0)

end JscDecompiler

namespace JscDecompiler

/-- C8.  For inputs of at least 8 bytes, the little-endian u32 at offset
0 decides routing: a value outside the three known magics is rejected
with the invalid-magic error and exit status 1; the modern magic
0xC0DE0628 exits with status 1 printing a message naming Node 22 on
stderr; only the two legacy magics reach the deserialization pipeline,
and every exit taken by the routing has status 1 (success paths exit 0
downstream). -/
theorem mainRoute_ok (data : List Nat) (hlen : 8 ≤ data.length) :
    (readUint32LE data 0 ∉ ALL_MAGIC →
      mainRoute data =
        .exit 1 ("Error: Invalid JSC magic: 0x" ++ pyHexPad 8 (readUint32LE data 0))) ∧
    (readUint32LE data 0 = 0xC0DE0628 →
      mainRoute data = .exit 1 modernFormatMsg ∧
        ("Node 22".data <:+: modernFormatMsg.data)) ∧
    (readUint32LE data 0 = 0xC0DE0BEE ∨ readUint32LE data 0 = 0xC0DE03BE →
      mainRoute data = .pipeline (readUint32LE data 0)) ∧
    (∀ st msg, mainRoute data = .exit st msg → st = 1) := by
  have hge : ¬ data.length < 8 := by omega
  refine ⟨?_, ?_, ?_, ?_⟩
  · intro hnot
    unfold mainRoute
    rw [if_neg hge, if_pos hnot]
  · intro hmodern
    refine ⟨?_, by decide⟩
    unfold mainRoute
    rw [if_neg hge]
    have hin : readUint32LE data 0 ∈ ALL_MAGIC := by
      rw [hmodern]; decide
    rw [if_neg (by simp [hin]), if_pos (by rw [hmodern]; decide)]
  · intro hlegacy
    unfold mainRoute
    rw [if_neg hge]
    have hin : readUint32LE data 0 ∈ ALL_MAGIC := by
      rcases hlegacy with h | h <;> rw [h] <;> decide
    have hnotmod : readUint32LE data 0 ∉ MAGIC_V8_MODERN := by
      rcases hlegacy with h | h <;> rw [h] <;> decide
    rw [if_neg (by simp [hin]), if_neg hnotmod]
  · intro st msg
    unfold mainRoute
    rw [if_neg hge]
    by_cases h1 : readUint32LE data 0 ∈ ALL_MAGIC
    · rw [if_neg (by simp [h1])]
      by_cases h2 : readUint32LE data 0 ∈ MAGIC_V8_MODERN
      · rw [if_pos h2]
        intro h
        cases h
        rfl
      · rw [if_neg h2]
        intro h
        cases h
    · rw [if_pos h1]
      intro h
      cases h
      rfl

/-- C8 witness: the theorem applied to concrete 8-byte inputs carrying
an unknown magic, the modern magic and a legacy magic. -/
theorem mainRoute_ok_witness :
    (mainRoute [1, 2, 3, 4, 0, 0, 0, 0] =
      .exit 1 ("Error: Invalid JSC magic: 0x" ++
        pyHexPad 8 (readUint32LE [1, 2, 3, 4, 0, 0, 0, 0] 0))) ∧
    (mainRoute [0x28, 0x06, 0xDE, 0xC0, 0, 0, 0, 0] = .exit 1 modernFormatMsg ∧
      ("Node 22".data <:+: modernFormatMsg.data)) ∧
    (mainRoute [0xEE, 0x0B, 0xDE, 0xC0, 0, 0, 0, 0] =
      .pipeline (readUint32LE [0xEE, 0x0B, 0xDE, 0xC0, 0, 0, 0, 0] 0)) :=
  ⟨(mainRoute_ok [1, 2, 3, 4, 0, 0, 0, 0] (by norm_num)).1 (by decide),
   (mainRoute_ok [0x28, 0x06, 0xDE, 0xC0, 0, 0, 0, 0] (by norm_num)).2.1 (by decide),
   (mainRoute_ok [0xEE, 0x0B, 0xDE, 0xC0, 0, 0, 0, 0] (by norm_num)).2.2.1
     (Or.inl (by decide))⟩

end JscDecompiler

namespace JscDecompiler

/-! ## Embedding of the SharedFunctionInfo name cleanup
(src/v6/structs.py lines 291-293) -/

/-- Python `str.replace` on character lists: scan left to right and
replace non-overlapping occurrences of `pat` by `rep`.  The fuel is the
input length, which suffices because every step consumes at least one
character. -/
def listReplace : Nat → List Char → List Char → List Char → List Char
  | 0, l, _, _ => l
  | _ + 1, [], _, _ => []
  | f + 1, c :: rest, pat, rep =>
    if pat.isPrefixOf (c :: rest) && !pat.isEmpty then
      rep ++ listReplace f (List.drop (pat.length - 1) rest) pat rep
    else c :: listReplace f rest pat rep

/-- Python `s.replace(pat, rep)` for a non-empty `pat`. -/
def pyReplace (s pat rep : String) : String :=
  String.mk (listReplace s.data.length s.data pat.data rep.data)

/-- Python `"func_%04d" % id`: the zero-padded fallback name. -/
def funcFallbackName (id : Nat) : String :=
  "func_" ++ padLeftZeros (toString id) 4

/-- The name cleanup of `SharedFunctionInfo.__init__`
(src/v6/structs.py): `self.name.replace(" ", "_").replace("empty_string", "")`,
falling back to `"func_%04d" % self.function_literal_id` when the result
is empty. -/
def sfi_clean_name (name : String) (function_literal_id : Nat) : String :=
  let n1 := pyReplace (pyReplace name " " "_") "empty_string" ""
  if n1 = "" then funcFallbackName function_literal_id else n1

theorem listReplace_of_no_occ (fuel : Nat) (pat rep : List Char) :
    ∀ l : List Char, ¬ (pat <:+: l) → listReplace fuel l pat rep = l := by
  induction fuel with
  | zero => intro l _; rfl
  | succ f ih =>
    intro l hinf
    match l with
    | [] => rfl
    | c :: rest =>
      have hpref : ¬ (pat.isPrefixOf (c :: rest) = true) := by
        intro hp
        exact hinf (List.isPrefixOf_iff_prefix.mp hp).isInfix
      unfold listReplace
      rw [if_neg (by simp [hpref])]
      have : ¬ (pat <:+: rest) := fun h => hinf (List.infix_cons h)
      rw [ih rest this]

theorem not_infix_singleton {a : Char} {l : List Char} (h : a ∉ l) :
    ¬ ([a] <:+: l) := by
  rintro ⟨s, t, he⟩
  exact h (he ▸ by simp)

theorem string_mk_data (s : String) : String.mk s.data = s := rfl

theorem pyReplace_of_no_occ (s pat rep : String)
    (h : ¬ (pat.data <:+: s.data)) : pyReplace s pat rep = s := by
  unfold pyReplace
  rw [listReplace_of_no_occ _ _ _ _ h, string_mk_data]

end JscDecompiler

namespace JscDecompiler

/-- C9 counterexample: the source name `a.b` (carrying a dot) is emitted
unchanged; the claim's dot-to-underscore rewriting does not happen. -/
theorem sfi_clean_name_counterexample :
    sfi_clean_name "a.b" 3 = "a.b" ∧ "a.b" ≠ "a_b" := by decide

/-- C9 (amended).  The emitted function name replaces spaces (not dots)
by underscores, removes occurrences of `empty_string`, and substitutes
the zero-padded fallback `func_NNNN` exactly when the result is empty:
names without spaces or `empty_string` pass through unchanged (dots
included), the name `empty_string` becomes the fallback, spaces become
underscores while dots are preserved, and the fallback is zero-padded. -/
theorem sfi_clean_name_ok :
    (∀ (name : String) (id : Nat), ' ' ∉ name.data →
      ¬ ("empty_string".data <:+: name.data) → name ≠ "" →
      sfi_clean_name name id = name) ∧
    (∀ id : Nat, sfi_clean_name "empty_string" id = funcFallbackName id) ∧
    sfi_clean_name "with space.and dot" 0 = "with_space.and_dot" ∧
    sfi_clean_name "" 12 = "func_0012" := by
  refine ⟨?_, ?_, by decide, by decide⟩
  · intro name id hsp hes hne
    have h1 : pyReplace name " " "_" = name :=
      pyReplace_of_no_occ _ _ _ (not_infix_singleton hsp)
    unfold sfi_clean_name
    rw [h1, pyReplace_of_no_occ _ _ _ hes]
    simp only [if_neg hne]
  · intro id
    rfl

/-- C9 witness: the amended theorem applied at the dotted name `a.b`
with literal id 7, and at the empty-name fallback with id 3. -/
theorem sfi_clean_name_ok_witness :
    sfi_clean_name "a.b" 7 = "a.b" ∧
    sfi_clean_name "empty_string" 3 = funcFallbackName 3 :=
  ⟨sfi_clean_name_ok.1 "a.b" 7 (by decide) (by decide) (by decide),
   sfi_clean_name_ok.2.1 3⟩

end JscDecompiler

namespace JscDecompiler

/-! ## Embedding of the bytecode disassembler (src/v6/disasm.py).
The embedding covers `disassemble_bytecode` with its default arguments
`constant_pool=None, handler_table=None` (the constant-pool comment
block is skipped when the pool is `None`, and the handler table is
unused by the function). -/

/-- Operand type constants from src/v6/disasm.py. -/
inductive OperandType where
  | kReg | kImm | kIdx | kUImm | kFlag8 | kIntrinsicId | kRuntimeId
  | kRegRange | kRegPair | kRegTriple
deriving DecidableEq

/-- The opcode table from src/v6/disasm.py (169 entries), as a lookup
function opcode byte -> (mnemonic, operand kinds). -/
def OPCODES (op : Nat) : Option (String × List OperandType) :=
  match op with
  | 0x00 => some ("Wide", [])
  | 0x01 => some ("ExtraWide", [])
  | 0x02 => some ("LdaZero", [])
  | 0x03 => some ("LdaSmi", [.kImm])
  | 0x04 => some ("LdaUndefined", [])
  | 0x05 => some ("LdaNull", [])
  | 0x06 => some ("LdaTheHole", [])
  | 0x07 => some ("LdaTrue", [])
  | 0x08 => some ("LdaFalse", [])
  | 0x09 => some ("LdaConstant", [.kIdx])
  | 0x0a => some ("LdaGlobal", [.kIdx, .kIdx])
  | 0x0b => some ("LdaGlobalInsideTypeof", [.kIdx, .kIdx])
  | 0x0c => some ("StaGlobalSloppy", [.kIdx, .kIdx])
  | 0x0d => some ("StaGlobalStrict", [.kIdx, .kIdx])
  | 0x0e => some ("PushContext", [.kReg])
  | 0x0f => some ("PopContext", [.kReg])
  | 0x10 => some ("LdaContextSlot", [.kReg, .kIdx, .kUImm])
  | 0x11 => some ("LdaImmutableContextSlot", [.kReg, .kIdx, .kUImm])
  | 0x12 => some ("LdaCurrentContextSlot", [.kIdx])
  | 0x13 => some ("LdaImmutableCurrentContextSlot", [.kIdx])
  | 0x14 => some ("StaContextSlot", [.kReg, .kIdx, .kUImm])
  | 0x15 => some ("StaCurrentContextSlot", [.kIdx])
  | 0x16 => some ("LdaLookupSlot", [.kIdx])
  | 0x17 => some ("LdaLookupContextSlot", [.kIdx, .kIdx, .kUImm])
  | 0x18 => some ("LdaLookupGlobalSlot", [.kIdx, .kIdx, .kUImm])
  | 0x19 => some ("LdaLookupSlotInsideTypeof", [.kIdx])
  | 0x1a => some ("LdaLookupContextSlotInsideTypeof", [.kIdx, .kIdx, .kUImm])
  | 0x1b => some ("LdaLookupGlobalSlotInsideTypeof", [.kIdx, .kIdx, .kUImm])
  | 0x1c => some ("StaLookupSlot", [.kIdx, .kFlag8])
  | 0x1d => some ("Ldar", [.kReg])
  | 0x1e => some ("Star", [.kReg])
  | 0x1f => some ("Mov", [.kReg, .kReg])
  | 0x20 => some ("LdaNamedProperty", [.kReg, .kIdx, .kIdx])
  | 0x21 => some ("LdaKeyedProperty", [.kReg, .kIdx])
  | 0x22 => some ("LdaModuleVariable", [.kImm, .kUImm])
  | 0x23 => some ("StaModuleVariable", [.kImm, .kUImm])
  | 0x24 => some ("StaNamedPropertySloppy", [.kReg, .kIdx, .kIdx])
  | 0x25 => some ("StaNamedPropertyStrict", [.kReg, .kIdx, .kIdx])
  | 0x26 => some ("StaNamedOwnProperty", [.kReg, .kIdx, .kIdx])
  | 0x27 => some ("StaKeyedPropertySloppy", [.kReg, .kReg, .kIdx])
  | 0x28 => some ("StaKeyedPropertyStrict", [.kReg, .kReg, .kIdx])
  | 0x29 => some ("StaDataPropertyInLiteral", [.kReg, .kReg, .kFlag8, .kIdx])
  | 0x2a => some ("CollectTypeProfile", [.kImm])
  | 0x2b => some ("Add", [.kReg, .kIdx])
  | 0x2c => some ("Sub", [.kReg, .kIdx])
  | 0x2d => some ("Mul", [.kReg, .kIdx])
  | 0x2e => some ("Div", [.kReg, .kIdx])
  | 0x2f => some ("Mod", [.kReg, .kIdx])
  | 0x30 => some ("BitwiseOr", [.kReg, .kIdx])
  | 0x31 => some ("BitwiseXor", [.kReg, .kIdx])
  | 0x32 => some ("BitwiseAnd", [.kReg, .kIdx])
  | 0x33 => some ("ShiftLeft", [.kReg, .kIdx])
  | 0x34 => some ("ShiftRight", [.kReg, .kIdx])
  | 0x35 => some ("ShiftRightLogical", [.kReg, .kIdx])
  | 0x36 => some ("AddSmi", [.kImm, .kIdx])
  | 0x37 => some ("SubSmi", [.kImm, .kIdx])
  | 0x38 => some ("MulSmi", [.kImm, .kIdx])
  | 0x39 => some ("DivSmi", [.kImm, .kIdx])
  | 0x3a => some ("ModSmi", [.kImm, .kIdx])
  | 0x3b => some ("BitwiseOrSmi", [.kImm, .kIdx])
  | 0x3c => some ("BitwiseXorSmi", [.kImm, .kIdx])
  | 0x3d => some ("BitwiseAndSmi", [.kImm, .kIdx])
  | 0x3e => some ("ShiftLeftSmi", [.kImm, .kIdx])
  | 0x3f => some ("ShiftRightSmi", [.kImm, .kIdx])
  | 0x40 => some ("ShiftRightLogicalSmi", [.kImm, .kIdx])
  | 0x41 => some ("Inc", [.kIdx])
  | 0x42 => some ("Dec", [.kIdx])
  | 0x43 => some ("ToBooleanLogicalNot", [])
  | 0x44 => some ("LogicalNot", [])
  | 0x45 => some ("TypeOf", [])
  | 0x46 => some ("DeletePropertyStrict", [.kReg])
  | 0x47 => some ("DeletePropertySloppy", [.kReg])
  | 0x48 => some ("GetSuperConstructor", [.kReg])
  | 0x49 => some ("CallAnyReceiver", [.kReg, .kRegRange, .kIdx])
  | 0x4a => some ("CallProperty", [.kReg, .kRegRange, .kIdx])
  | 0x4b => some ("CallProperty0", [.kReg, .kReg, .kIdx])
  | 0x4c => some ("CallProperty1", [.kReg, .kReg, .kReg, .kIdx])
  | 0x4d => some ("CallProperty2", [.kReg, .kReg, .kReg, .kReg, .kIdx])
  | 0x4e => some ("CallUndefinedReceiver", [.kReg, .kRegRange, .kIdx])
  | 0x4f => some ("CallUndefinedReceiver0", [.kReg, .kIdx])
  | 0x50 => some ("CallUndefinedReceiver1", [.kReg, .kReg, .kIdx])
  | 0x51 => some ("CallUndefinedReceiver2", [.kReg, .kReg, .kReg, .kIdx])
  | 0x52 => some ("CallWithSpread", [.kReg, .kRegRange, .kIdx])
  | 0x53 => some ("CallRuntime", [.kRuntimeId, .kRegRange])
  | 0x54 => some ("CallRuntimeForPair", [.kRuntimeId, .kRegRange, .kRegPair])
  | 0x55 => some ("CallJSRuntime", [.kIdx, .kRegRange])
  | 0x56 => some ("InvokeIntrinsic", [.kIntrinsicId, .kRegRange])
  | 0x57 => some ("Construct", [.kReg, .kRegRange, .kIdx])
  | 0x58 => some ("ConstructWithSpread", [.kReg, .kRegRange, .kIdx])
  | 0x59 => some ("TestEqual", [.kReg, .kIdx])
  | 0x5a => some ("TestEqualStrict", [.kReg, .kIdx])
  | 0x5b => some ("TestLessThan", [.kReg, .kIdx])
  | 0x5c => some ("TestGreaterThan", [.kReg, .kIdx])
  | 0x5d => some ("TestLessThanOrEqual", [.kReg, .kIdx])
  | 0x5e => some ("TestGreaterThanOrEqual", [.kReg, .kIdx])
  | 0x5f => some ("TestEqualStrictNoFeedback", [.kReg])
  | 0x60 => some ("TestInstanceOf", [.kReg])
  | 0x61 => some ("TestIn", [.kReg])
  | 0x62 => some ("TestUndetectable", [])
  | 0x63 => some ("TestNull", [])
  | 0x64 => some ("TestUndefined", [])
  | 0x65 => some ("TestTypeOf", [.kFlag8])
  | 0x66 => some ("ToName", [.kReg])
  | 0x67 => some ("ToNumber", [.kReg, .kIdx])
  | 0x68 => some ("ToObject", [.kReg])
  | 0x69 => some ("CreateRegExpLiteral", [.kIdx, .kIdx, .kFlag8])
  | 0x6a => some ("CreateArrayLiteral", [.kIdx, .kIdx, .kFlag8])
  | 0x6b => some ("CreateEmptyArrayLiteral", [.kIdx])
  | 0x6c => some ("CreateObjectLiteral", [.kIdx, .kIdx, .kFlag8, .kReg])
  | 0x6d => some ("CreateEmptyObjectLiteral", [])
  | 0x6e => some ("CreateClosure", [.kIdx, .kIdx, .kFlag8])
  | 0x6f => some ("CreateBlockContext", [.kIdx])
  | 0x70 => some ("CreateCatchContext", [.kReg, .kIdx, .kIdx])
  | 0x71 => some ("CreateFunctionContext", [.kUImm])
  | 0x72 => some ("CreateEvalContext", [.kUImm])
  | 0x73 => some ("CreateWithContext", [.kReg, .kIdx])
  | 0x74 => some ("CreateMappedArguments", [])
  | 0x75 => some ("CreateUnmappedArguments", [])
  | 0x76 => some ("CreateRestParameter", [])
  | 0x77 => some ("JumpLoop", [.kUImm, .kImm])
  | 0x78 => some ("Jump", [.kUImm])
  | 0x79 => some ("JumpConstant", [.kIdx])
  | 0x7a => some ("JumpIfNullConstant", [.kIdx])
  | 0x7b => some ("JumpIfNotNullConstant", [.kIdx])
  | 0x7c => some ("JumpIfUndefinedConstant", [.kIdx])
  | 0x7d => some ("JumpIfNotUndefinedConstant", [.kIdx])
  | 0x7e => some ("JumpIfTrueConstant", [.kIdx])
  | 0x7f => some ("JumpIfFalseConstant", [.kIdx])
  | 0x80 => some ("JumpIfJSReceiverConstant", [.kIdx])
  | 0x81 => some ("JumpIfToBooleanTrueConstant", [.kIdx])
  | 0x82 => some ("JumpIfToBooleanFalseConstant", [.kIdx])
  | 0x83 => some ("JumpIfToBooleanTrue", [.kUImm])
  | 0x84 => some ("JumpIfToBooleanFalse", [.kUImm])
  | 0x85 => some ("JumpIfTrue", [.kUImm])
  | 0x86 => some ("JumpIfFalse", [.kUImm])
  | 0x87 => some ("JumpIfNull", [.kUImm])
  | 0x88 => some ("JumpIfNotNull", [.kUImm])
  | 0x89 => some ("JumpIfUndefined", [.kUImm])
  | 0x8a => some ("JumpIfNotUndefined", [.kUImm])
  | 0x8b => some ("JumpIfJSReceiver", [.kUImm])
  | 0x8c => some ("SwitchOnSmiNoFeedback", [.kIdx, .kUImm, .kImm])
  | 0x8d => some ("ForInPrepare", [.kReg, .kRegTriple])
  | 0x8e => some ("ForInContinue", [.kReg, .kReg])
  | 0x8f => some ("ForInNext", [.kReg, .kReg, .kRegPair, .kIdx])
  | 0x90 => some ("ForInStep", [.kReg])
  | 0x91 => some ("StackCheck", [])
  | 0x92 => some ("SetPendingMessage", [])
  | 0x93 => some ("Throw", [])
  | 0x94 => some ("ReThrow", [])
  | 0x95 => some ("Return", [])
  | 0x96 => some ("ThrowReferenceErrorIfHole", [.kIdx])
  | 0x97 => some ("ThrowSuperNotCalledIfHole", [])
  | 0x98 => some ("ThrowSuperAlreadyCalledIfNotHole", [])
  | 0x99 => some ("RestoreGeneratorState", [.kReg])
  | 0x9a => some ("SuspendGenerator", [.kReg, .kRegRange, .kUImm])
  | 0x9b => some ("RestoreGeneratorRegisters", [.kReg, .kRegRange])
  | 0x9c => some ("Debugger", [])
  | 0x9d => some ("DebugBreak0", [])
  | 0x9e => some ("DebugBreak1", [.kReg])
  | 0x9f => some ("DebugBreak2", [.kReg, .kReg])
  | 0xa0 => some ("DebugBreak3", [.kReg, .kReg, .kReg])
  | 0xa1 => some ("DebugBreak4", [.kReg, .kReg, .kReg, .kReg])
  | 0xa2 => some ("DebugBreak5", [.kRuntimeId, .kReg, .kReg])
  | 0xa3 => some ("DebugBreak6", [.kRuntimeId, .kReg, .kReg, .kReg])
  | 0xa4 => some ("DebugBreakWide", [])
  | 0xa5 => some ("DebugBreakExtraWide", [])
  | 0xa6 => some ("IncBlockCounter", [.kIdx])
  | 0xa7 => some ("Illegal", [])
  | 0xa8 => some ("Nop", [])
  | _ => none

/-- `FORWARD_JUMPS` from src/v6/disasm.py. -/
def FORWARD_JUMPS : List String :=
  ["Jump", "JumpIfToBooleanTrue", "JumpIfToBooleanFalse",
   "JumpIfTrue", "JumpIfFalse", "JumpIfNull", "JumpIfNotNull",
   "JumpIfUndefined", "JumpIfNotUndefined", "JumpIfJSReceiver"]

/-- `BACKWARD_JUMPS` from src/v6/disasm.py. -/
def BACKWARD_JUMPS : List String := ["JumpLoop"]

/-- `TYPEOF_LITERALS` from src/v6/disasm.py. -/
def TYPEOF_LITERALS : List String :=
  ["number", "string", "symbol", "boolean", "undefined",
   "function", "object", "other"]

/-- `_byte_to_register` from src/v6/disasm.py. -/
def byte_to_register (val : Nat) : String :=
  if val = 0 then "Wide"
  else if val = 1 then "ExtraWide"
  else if 2 ≤ val ∧ val ≤ 127 then "a" ++ toString (val - 2)
  else if 128 ≤ val ∧ val ≤ 251 then "r" ++ toString (251 - val)
  else if val = 252 then "_closure"
  else if val = 253 then "_context"
  else "??(" ++ toString val ++ ")"

/-- `struct.unpack_from("<H", data, pos)`: little-endian u16. -/
def readUint16LE (data : List Nat) (pos : Nat) : Nat :=
  byteAt data pos + 2 ^ 8 * byteAt data (pos + 1)

/-- The standard-operand read of the disassembler loop: read
`operand_size` bytes at `pos`; when the bytes extend past the buffer,
the value is 0 and the cursor is set to the buffer length. -/
def readStandardOperand (bytecode : List Nat) (operand_size pos : Nat) :
    Nat × Nat :=
  if operand_size = 1 then
    if pos ≥ bytecode.length then (0, bytecode.length)
    else (byteAt bytecode pos, pos + 1)
  else if operand_size = 2 then
    if pos + 2 > bytecode.length then (0, bytecode.length)
    else (readUint16LE bytecode pos, pos + 2)
  else
    if pos + 4 > bytecode.length then (0, bytecode.length)
    else (readUint32LE bytecode pos, pos + 4)

/-- The register-operand read used by kRegRange / kRegPair / kRegTriple:
the value is 0 when out of bounds but the cursor always advances by the
full operand width. -/
def readRegOperand (bytecode : List Nat) (operand_size pos : Nat) :
    Nat × Nat :=
  if operand_size = 1 then
    ((if pos < bytecode.length then byteAt bytecode pos else 0), pos + 1)
  else if operand_size = 2 then
    ((if pos + 2 ≤ bytecode.length then readUint16LE bytecode pos else 0), pos + 2)
  else
    ((if pos + 4 ≤ bytecode.length then readUint32LE bytecode pos else 0), pos + 4)

/-- The kRuntimeId read: always 2 bytes; value 0 and cursor clamped when
out of bounds. -/
def readRuntimeId (bytecode : List Nat) (pos : Nat) : Nat × Nat :=
  if pos + 2 ≤ bytecode.length then (readUint16LE bytecode pos, pos + 2)
  else (0, bytecode.length)

/-- An entry of the `operands` list: Python appends `(op_type, val)` for
single-value operands and `(op_type, (reg_byte, count))` for ranges. -/
inductive OperandVal where
  | single (t : OperandType) (v : Nat)
  | range (t : OperandType) (reg : Nat) (count : Nat)
deriving DecidableEq

/-- The kImm operand string: the code sign-extends 1- and 2-byte
immediates before formatting (there is no 4-byte case). -/
def imm_operand_str (operand_size val : Nat) : String :=
  let v : Int :=
    if operand_size = 1 ∧ val > 127 then (val : Int) - 256
    else if operand_size = 2 ∧ val > 32767 then (val : Int) - 65536
    else (val : Int)
  "[" ++ toString v ++ "]"

/-- Decode one operand at `pos`: new cursor, `operands` entry and
`operand_strs` entry, following the per-kind branches of the loop
body. -/
def decodeOperand (bytecode : List Nat) (operand_size pos : Nat) :
    OperandType → Nat × OperandVal × String
  | .kRuntimeId =>
    let r := readRuntimeId bytecode pos
    (r.2, .single .kRuntimeId r.1, "[" ++ toString r.1 ++ "]")
  | .kRegRange =>
    let r1 := readRegOperand bytecode operand_size pos
    let r2 := readRegOperand bytecode operand_size r1.2
    let reg_name := byte_to_register (r1.1 % 256)
    (r2.2, .range .kRegRange r1.1 r2.1,
      reg_name ++ "-" ++
        (if r2.1 > 0 then byte_to_register ((r1.1 + r2.1 - 1) % 256)
          else reg_name) ++
        "(" ++ toString r2.1 ++ ")")
  | .kRegPair =>
    let r := readRegOperand bytecode operand_size pos
    (r.2, .single .kRegPair r.1, byte_to_register (r.1 % 256) ++ "(pair)")
  | .kRegTriple =>
    let r := readRegOperand bytecode operand_size pos
    (r.2, .single .kRegTriple r.1, byte_to_register (r.1 % 256) ++ "(triple)")
  | .kReg =>
    let r := readStandardOperand bytecode operand_size pos
    (r.2, .single .kReg r.1, byte_to_register (r.1 % 256))
  | .kImm =>
    let r := readStandardOperand bytecode operand_size pos
    (r.2, .single .kImm r.1, imm_operand_str operand_size r.1)
  | .kIdx =>
    let r := readStandardOperand bytecode operand_size pos
    (r.2, .single .kIdx r.1, "[" ++ toString r.1 ++ "]")
  | .kUImm =>
    let r := readStandardOperand bytecode operand_size pos
    (r.2, .single .kUImm r.1, "[" ++ toString r.1 ++ "]")
  | .kFlag8 =>
    let r := readStandardOperand bytecode operand_size pos
    (r.2, .single .kFlag8 r.1, "#" ++ toString r.1)
  | .kIntrinsicId =>
    let r := readStandardOperand bytecode operand_size pos
    (r.2, .single .kIntrinsicId r.1, "[" ++ toString r.1 ++ "]")

/-- Decode the operand list left to right, threading the cursor. -/
def decodeOperands (bytecode : List Nat) (operand_size : Nat) :
    List OperandType → Nat → Nat × List OperandVal × List String
  | [], pos => (pos, [], [])
  | t :: ts, pos =>
    let r := decodeOperand bytecode operand_size pos t
    let rest := decodeOperands bytecode operand_size ts r.1
    (rest.1, r.2.1 :: rest.2.1, r.2.2 :: rest.2.2)

/-- First kUImm operand value (the jump-comment scan). -/
def firstUImmVal : List OperandVal → Option Nat
  | [] => none
  | .single .kUImm v :: _ => some v
  | _ :: rest => firstUImmVal rest

/-- First kFlag8 operand value (the TestTypeOf comment scan). -/
def firstFlag8Val : List OperandVal → Option Nat
  | [] => none
  | .single .kFlag8 v :: _ => some v
  | _ :: rest => firstFlag8Val rest

/-- Python slice `l[a:b]` (clamped). -/
def sliceBytes (l : List Nat) (a b : Nat) : List Nat :=
  (l.drop a).take (b - a)

/-- One decoded instruction:
`(offset, mnemonic, operands_str, raw_bytes, comment)`. -/
structure Instr where
  offset : Nat
  mnemonic : String
  operandsStr : String
  rawBytes : List Nat
  comment : String
deriving DecidableEq

/-- The body of the loop after prefix handling: look up the opcode,
decode operands, build jump / TestTypeOf comments.  `name` is the table
mnemonic, which equals Python's `base_mnemonic` (the prefix is joined
with a dot and split off again there; table names contain no dot). -/
def disasmTail (bytecode : List Nat) (inst_start opcode : Nat)
    (prefixName : Option String) (operand_size pos : Nat) : Instr × Nat :=
  match OPCODES opcode with
  | none =>
    (⟨inst_start, "UNKNOWN", "0x" ++ pyHexPad 2 (opcode : Int),
      sliceBytes bytecode inst_start pos, ""⟩, pos)
  | some (name, operand_types) =>
    let mnemonic := match prefixName with
      | some p => p ++ "." ++ name
      | none => name
    let d := decodeOperands bytecode operand_size operand_types pos
    let comment :=
      if name ∈ FORWARD_JUMPS then
        match firstUImmVal d.2.1 with
        | some v => "-> @" ++ pyHexPad 4 ((inst_start : Int) + (v : Int))
        | none => ""
      else if name ∈ BACKWARD_JUMPS then
        match firstUImmVal d.2.1 with
        | some v => "-> @" ++ pyHexPad 4 ((inst_start : Int) - (v : Int))
        | none => ""
      else ""
    let comment :=
      if name = "TestTypeOf" then
        match firstFlag8Val d.2.1 with
        | some v =>
          if v < TYPEOF_LITERALS.length then "; " ++ TYPEOF_LITERALS.getD v ""
          else comment
        | none => comment
      else comment
    (⟨inst_start, mnemonic, String.intercalate " " d.2.2,
      sliceBytes bytecode inst_start d.1, comment⟩, d.1)

/-- One iteration of the `while pos < length` loop: consume the opcode
byte, handle the Wide / ExtraWide prefixes (returning no instruction
when the prefix is the last byte, as the Python loop breaks), and run
the tail.  Returns the instruction (when any) and the new cursor. -/
def disasmStep (bytecode : List Nat) (pos : Nat) : Option Instr × Nat :=
  let opcode := byteAt bytecode pos
  if opcode = 0 then
    if pos + 1 ≥ bytecode.length then (none, pos + 1)
    else
      let r := disasmTail bytecode pos (byteAt bytecode (pos + 1))
        (some "Wide") 2 (pos + 2)
      (some r.1, r.2)
  else if opcode = 1 then
    if pos + 1 ≥ bytecode.length then (none, pos + 1)
    else
      let r := disasmTail bytecode pos (byteAt bytecode (pos + 1))
        (some "ExtraWide") 4 (pos + 2)
      (some r.1, r.2)
  else
    let r := disasmTail bytecode pos opcode none 1 (pos + 1)
    (some r.1, r.2)

/-- The disassembler loop with explicit fuel (the fuel only bounds the
iteration count; `disasmLoop_fuel_stable` shows any fuel of at least
`length - pos` gives the same result).  Also returns the final cursor. -/
def disasmLoop (bytecode : List Nat) : Nat → Nat → List Instr × Nat
  | 0, pos => ([], pos)
  | f + 1, pos =>
    if pos < bytecode.length then
      match disasmStep bytecode pos with
      | (none, p2) => ([], p2)
      | (some inst, p2) =>
        let r := disasmLoop bytecode f p2
        (inst :: r.1, r.2)
    else ([], pos)

/-- `disassemble_bytecode` from src/v6/disasm.py (with
`constant_pool=None, handler_table=None`). -/
def disassemble_bytecode (bytecode : List Nat) : List Instr :=
  (disasmLoop bytecode (bytecode.length + 1) 0).1

end JscDecompiler

namespace JscDecompiler

/-- C5.  `imm_operand_str` sign-extends 1-byte and 2-byte immediates
but has no 4-byte case: under the ExtraWide prefix an immediate with
the top bit set is rendered unsigned.  Evaluating the disassembler at
`[0x01, 0x03, 0xFF, 0xFF, 0xFF, 0xFF]` (ExtraWide LdaSmi with
immediate 0xFFFFFFFF) yields `[4294967295]` where the claim (and the
module's own "kImm - signed immediate" documentation) requires
`[-1]`. -/
theorem disasm_imm_sign_extension_bug :
    imm_operand_str 1 0xFF = "[-1]" ∧
    imm_operand_str 2 0xFFFF = "[-1]" ∧
    imm_operand_str 4 0xFFFFFFFF = "[4294967295]" ∧
    disassemble_bytecode [0x01, 0x03, 0xFF, 0xFF, 0xFF, 0xFF] =
      [⟨0, "ExtraWide.LdaSmi", "[4294967295]",
        [0x01, 0x03, 0xFF, 0xFF, 0xFF, 0xFF], ""⟩] := by
  refine ⟨rfl, rfl, rfl, ?_⟩
  rfl

end JscDecompiler

namespace JscDecompiler

theorem decodeOperand_ge (bytecode : List Nat) (operand_size pos k : Nat)
    (t : OperandType) (h1 : k ≤ pos) (h2 : k ≤ bytecode.length) :
    k ≤ (decodeOperand bytecode operand_size pos t).1 := by
  cases t <;>
    simp only [decodeOperand, readStandardOperand, readRuntimeId,
      readRegOperand] <;>
    split_ifs <;> simp <;> omega

theorem decodeOperands_ge (bytecode : List Nat) (operand_size : Nat) :
    ∀ (ts : List OperandType) (pos k : Nat), k ≤ pos → k ≤ bytecode.length →
      k ≤ (decodeOperands bytecode operand_size ts pos).1 := by
  intro ts
  induction ts with
  | nil => intro pos k h1 _; exact h1
  | cons t rest ih =>
    intro pos k h1 h2
    simp only [decodeOperands]
    exact ih _ k (decodeOperand_ge bytecode operand_size pos k t h1 h2) h2

theorem disasmTail_ge (bytecode : List Nat) (inst_start opcode : Nat)
    (p : Option String) (operand_size pos k : Nat)
    (h1 : k ≤ pos) (h2 : k ≤ bytecode.length) :
    k ≤ (disasmTail bytecode inst_start opcode p operand_size pos).2 := by
  unfold disasmTail
  rcases h : OPCODES opcode with _ | ⟨name, ots⟩
  · simpa using h1
  · simp only []
    exact decodeOperands_ge bytecode operand_size ots pos k h1 h2

theorem disasmStep_progress (bytecode : List Nat) (pos : Nat)
    (h : pos < bytecode.length) : pos + 1 ≤ (disasmStep bytecode pos).2 := by
  unfold disasmStep
  by_cases h0 : byteAt bytecode pos = 0
  · rw [if_pos h0]
    by_cases hb : pos + 1 ≥ bytecode.length
    · rw [if_pos hb]
    · rw [if_neg hb]
      exact disasmTail_ge bytecode pos _ _ 2 (pos + 2) (pos + 1)
        (by omega) (by omega)
  · rw [if_neg h0]
    by_cases h1 : byteAt bytecode pos = 1
    · rw [if_pos h1]
      by_cases hb : pos + 1 ≥ bytecode.length
      · rw [if_pos hb]
      · rw [if_neg hb]
        exact disasmTail_ge bytecode pos _ _ 4 (pos + 2) (pos + 1)
          (by omega) (by omega)
    · rw [if_neg h1]
      exact disasmTail_ge bytecode pos _ _ 1 (pos + 1) (pos + 1)
        (by omega) (by omega)

theorem disasmLoop_norm (bytecode : List Nat) :
    ∀ (n f pos : Nat), bytecode.length - pos ≤ n → n ≤ f →
      disasmLoop bytecode f pos = disasmLoop bytecode n pos := by
  intro n
  induction n with
  | zero =>
    intro f pos h1 _
    match f with
    | 0 => rfl
    | g + 1 =>
      show disasmLoop bytecode (g + 1) pos = disasmLoop bytecode 0 pos
      unfold disasmLoop
      rw [if_neg (by omega)]
  | succ n ih =>
    intro f pos h1 h2
    match f with
    | 0 => exact absurd h2 (by omega)
    | g + 1 =>
      by_cases hp : pos < bytecode.length
      · have hprog := disasmStep_progress bytecode pos hp
        show disasmLoop bytecode (g + 1) pos = disasmLoop bytecode (n + 1) pos
        unfold disasmLoop
        rw [if_pos hp, if_pos hp]
        rcases hstep : disasmStep bytecode pos with ⟨oi, p2⟩
        rw [hstep] at hprog
        rcases oi with _ | inst
        · rfl
        · simp only []
          rw [ih g p2 (by simp at hprog; omega) (by omega)]
      · show disasmLoop bytecode (g + 1) pos = disasmLoop bytecode (n + 1) pos
        unfold disasmLoop
        rw [if_neg hp, if_neg hp]

/-- C10 counterexample: disassembling `[0x8d, 0x05]` (ForInPrepare with
a truncated kRegTriple operand) leaves the cursor at 3, past the buffer
length 2 — the cursor is not clamped to the buffer length. -/
theorem disasm_cursor_overshoot_counterexample :
    (disasmLoop [0x8d, 0x05] ([0x8d, 0x05].length + 1) 0).2 = 3 ∧
    ([0x8d, 0x05] : List Nat).length = 2 := by
  refine ⟨?_, rfl⟩
  rfl

/-- C10 (amended).  `disassemble_bytecode` always terminates on a
finite instruction list: every loop iteration advances the cursor by at
least one byte, and the fuel-indexed loop is stable once the fuel
reaches `length - pos` (so the result is the loop's true fixpoint).
When a standard (non-register) operand's bytes extend past the end of
the buffer the operand decodes to 0 and the cursor is clamped to the
buffer length; register-range / pair / triple operands also decode to
0 but advance the cursor by their full width, possibly past the buffer
length (the loop still exits because the cursor is then at least the
length). -/
theorem disassemble_terminates_ok :
    (∀ (bytecode : List Nat) (pos : Nat), pos < bytecode.length →
      pos + 1 ≤ (disasmStep bytecode pos).2) ∧
    (∀ (bytecode : List Nat) (f1 f2 pos : Nat),
      bytecode.length - pos ≤ f1 → bytecode.length - pos ≤ f2 →
      disasmLoop bytecode f1 pos = disasmLoop bytecode f2 pos) ∧
    (∀ (bytecode : List Nat) (pos : Nat),
      (bytecode.length ≤ pos →
        readStandardOperand bytecode 1 pos = (0, bytecode.length)) ∧
      (bytecode.length < pos + 2 →
        readStandardOperand bytecode 2 pos = (0, bytecode.length)) ∧
      (bytecode.length < pos + 4 →
        readStandardOperand bytecode 4 pos = (0, bytecode.length))) ∧
    (∀ (bytecode : List Nat) (pos : Nat), bytecode.length ≤ pos →
      readRegOperand bytecode 1 pos = (0, pos + 1)) := by
  refine ⟨disasmStep_progress, ?_, ?_, ?_⟩
  · intro bytecode f1 f2 pos hf1 hf2
    rw [disasmLoop_norm bytecode (bytecode.length - pos) f1 pos le_rfl hf1,
      disasmLoop_norm bytecode (bytecode.length - pos) f2 pos le_rfl hf2]
  · intro bytecode pos
    refine ⟨?_, ?_, ?_⟩ <;> intro hb <;>
      simp only [readStandardOperand] <;> split_ifs <;> first | rfl | omega
  · intro bytecode pos hb
    simp only [readRegOperand]
    split_ifs <;> first | rfl | omega

/-- C10 witness: the amended theorem applied at concrete inputs — the
progress of the first step on `[0x8d, 0x05]`, loop stability at two
fuels, the clamping of a 2-byte standard operand and the overshoot of a
1-byte register operand on a 2-byte buffer. -/
theorem disassemble_terminates_ok_witness :
    0 + 1 ≤ (disasmStep [0x8d, 0x05] 0).2 ∧
    disasmLoop [0x8d, 0x05] 5 0 = disasmLoop [0x8d, 0x05] 9 0 ∧
    readStandardOperand [0x8d, 0x05] 2 1 = (0, 2) ∧
    readRegOperand [0x8d, 0x05] 1 2 = (0, 3) :=
  ⟨disassemble_terminates_ok.1 [0x8d, 0x05] 0 (by norm_num),
   disassemble_terminates_ok.2.1 [0x8d, 0x05] 5 9 0 (by norm_num) (by norm_num),
   by
     have h := (disassemble_terminates_ok.2.2.1 [0x8d, 0x05] 1).2.1 (by norm_num)
     simpa using h,
   by
     have h := disassemble_terminates_ok.2.2.2 [0x8d, 0x05] 2 (by norm_num)
     simpa using h⟩

end JscDecompiler

namespace JscDecompiler

/-! ## Embedding of the reconstructor's precedence machinery
(src/reconstructor.py): `_wrap_left`, `_wrap_right` and the arithmetic
handlers of `reconstruct_js`, specialised to a function scope with no
parameter or stack-local names (so `_reg_to_name` keeps raw register
names). -/

/-- Precedence constants from src/reconstructor.py. -/
def P_OR : Nat := 6

def P_XOR : Nat := 7

def P_AND : Nat := 8

def P_EQ : Nat := 9

def P_REL : Nat := 10

def P_SHIFT : Nat := 11

def P_ADD : Nat := 12

def P_MUL : Nat := 13

def P_EXP : Nat := 14

def P_ATOM : Nat := 100

/-- `_RIGHT_ASSOC_SAFE` from src/reconstructor.py. -/
def RIGHT_ASSOC_SAFE : List String := ["+", "*", "|", "&", "^"]

/-- `_wrap_left` from src/reconstructor.py. -/
def wrap_left (acc : String) (acc_prec op_prec : Nat) : String :=
  if acc_prec < op_prec then "(" ++ acc ++ ")" else acc

/-- `_wrap_right` from src/reconstructor.py. -/
def wrap_right (acc : String) (acc_prec op_prec : Nat) (op_str : String) : String :=
  if acc_prec < op_prec then "(" ++ acc ++ ")"
  else if acc_prec = op_prec ∧ op_str ∉ RIGHT_ASSOC_SAFE then "(" ++ acc ++ ")"
  else acc

/-- Python `re.match(r'^[ar]\d+$', name)` as a Bool. -/
def isRawReg (s : String) : Bool :=
  match s.data with
  | c :: rest => (c = 'a' || c = 'r') && !rest.isEmpty && rest.all Char.isDigit
  | [] => false

/-- `_reg_to_name` with empty parameter and stack-local lists: only the
special receiver register is renamed, every other register string is
returned unchanged. -/
def rname (s : String) : String := if s = "<this>" then "this" else s

/-- The symbolic-machine state of `reconstruct_js`: accumulator string,
its precedence, the register map and the emitted statement lines. -/
structure ReconState where
  acc : String
  accPrec : Nat
  regs : List (String × String)
  lines : List String
deriving DecidableEq

/-- Dictionary get with default (`regs.get(name, name)`). -/
def regsGet (regs : List (String × String)) (name : String) : String :=
  match regs.find? (fun p => p.1 = name) with
  | some p => p.2
  | none => name

/-- Dictionary update (`regs[name] = val`). -/
def regsSet (regs : List (String × String)) (name val : String) :
    List (String × String) :=
  if regs.any (fun p => p.1 = name) then
    regs.map (fun p => if p.1 = name then (name, val) else p)
  else regs ++ [(name, val)]

/-- `get_reg` from `reconstruct_js`. -/
def getReg (st : ReconState) (r : String) : String :=
  regsGet st.regs (rname r)

/-- The arithmetic / register instructions of the reconstructor's
dispatch, with operands already extracted (the Python code re-parses
them from the disassembly text). -/
inductive RInst where
  | ldaSmi (val : Int)
  | ldar (reg : String)
  | star (reg : String)
  | add (reg : String)
  | sub (reg : String)
  | mul (reg : String)
  | div (reg : String)
  | mod (reg : String)
  | addSmi (val : Int)
  | subSmi (val : Int)
  | mulSmi (val : Int)
  | divSmi (val : Int)
  | modSmi (val : Int)
deriving DecidableEq

/-- One instruction of the accumulator/register symbolic machine,
mirroring the corresponding handlers of `reconstruct_js` (register
variants put the accumulator on the right and wrap with `_wrap_right`;
Smi variants put it on the left and wrap with `_wrap_left`). -/
def reconStep (st : ReconState) : RInst → ReconState
  | .ldaSmi v => { st with acc := toString v, accPrec := P_ATOM }
  | .ldar r => { st with acc := getReg st r, accPrec := P_ATOM }
  | .star r =>
    let name := rname r
    if isRawReg name then
      let stored := if st.accPrec < P_ATOM then "(" ++ st.acc ++ ")" else st.acc
      { st with regs := regsSet st.regs name stored,
                acc := name, accPrec := P_ATOM }
    else
      { st with regs := regsSet (regsSet st.regs name st.acc) name name,
                lines := st.lines ++ ["    " ++ name ++ " = " ++ st.acc ++ ";"],
                acc := name, accPrec := P_ATOM }
  | .add r =>
    { st with acc := getReg st r ++ " + " ++ wrap_right st.acc st.accPrec P_ADD "+",
              accPrec := P_ADD }
  | .sub r =>
    { st with acc := getReg st r ++ " - " ++ wrap_right st.acc st.accPrec P_ADD "-",
              accPrec := P_ADD }
  | .mul r =>
    { st with acc := getReg st r ++ " * " ++ wrap_right st.acc st.accPrec P_MUL "*",
              accPrec := P_MUL }
  | .div r =>
    { st with acc := getReg st r ++ " / " ++ wrap_right st.acc st.accPrec P_MUL "/",
              accPrec := P_MUL }
  | .mod r =>
    { st with acc := getReg st r ++ " % " ++ wrap_right st.acc st.accPrec P_MUL "%",
              accPrec := P_MUL }
  | .addSmi v =>
    { st with acc := wrap_left st.acc st.accPrec P_ADD ++ " + " ++ toString v,
              accPrec := P_ADD }
  | .subSmi v =>
    { st with acc := wrap_left st.acc st.accPrec P_ADD ++ " - " ++ toString v,
              accPrec := P_ADD }
  | .mulSmi v =>
    { st with acc := wrap_left st.acc st.accPrec P_MUL ++ " * " ++ toString v,
              accPrec := P_MUL }
  | .divSmi v =>
    { st with acc := wrap_left st.acc st.accPrec P_MUL ++ " / " ++ toString v,
              accPrec := P_MUL }
  | .modSmi v =>
    { st with acc := wrap_left st.acc st.accPrec P_MUL ++ " % " ++ toString v,
              accPrec := P_MUL }

/-- The machine's initial state (`acc = "undefined"`, precedence ATOM,
empty register map). -/
def reconInit : ReconState := ⟨"undefined", P_ATOM, [], []⟩

/-- Run the symbolic machine over an instruction sequence. -/
def runRecon (insts : List RInst) : ReconState :=
  insts.foldl reconStep reconInit

theorem paren_ne (acc : String) : "(" ++ acc ++ ")" ≠ acc := by
  intro h
  have hl := congrArg String.length h
  rw [String.length_append, String.length_append] at hl
  rw [show ("(" : String).length = 1 from rfl,
    show (")" : String).length = 1 from rfl] at hl
  omega

end JscDecompiler

namespace JscDecompiler

/-- C6.  `left OP right` wraps the left operand exactly when its
precedence is strictly below the operator's, and the right operand
exactly when its precedence is strictly below, or equal with `OP`
outside the associative-safe set; lifting the bytecode of
`(2 + 3) * 4` prints `(2 + 3) * 4` while the bytecode of `2 + 3 * 4`
prints `2 + 3 * 4` with no parentheses. -/
theorem wrap_precedence_ok :
    (∀ (acc : String) (p q : Nat),
      (wrap_left acc p q = "(" ++ acc ++ ")" ↔ p < q)) ∧
    (∀ (acc : String) (p q : Nat) (op : String),
      (wrap_right acc p q op = "(" ++ acc ++ ")" ↔
        (p < q ∨ (p = q ∧ op ∉ RIGHT_ASSOC_SAFE)))) ∧
    (runRecon [.ldaSmi 2, .star "r0", .ldaSmi 3, .add "r0",
      .mulSmi 4]).acc = "(2 + 3) * 4" ∧
    (runRecon [.ldaSmi 2, .star "r0", .ldaSmi 3, .star "r1", .ldaSmi 4,
      .mul "r1", .add "r0"]).acc = "2 + 3 * 4" := by
  refine ⟨?_, ?_, by rfl, by rfl⟩
  · intro acc p q
    unfold wrap_left
    by_cases hpq : p < q
    · simp [hpq]
    · simp [hpq, Ne.symm (paren_ne acc)]
  · intro acc p q op
    unfold wrap_right
    by_cases h1 : p < q
    · simp [h1]
    · rw [if_neg h1]
      by_cases h2 : p = q ∧ op ∉ RIGHT_ASSOC_SAFE
      · simp [h2, h1]
      · rw [if_neg h2]
        simp [Ne.symm (paren_ne acc), h1, h2]

end JscDecompiler

namespace JscDecompiler

/-! ## Embedding of the back-reference resolution path
(src/v6/parser.py `_get_back_referenced_object` and the `kBackref` arm
of `_read_space_data`, over the heap model of
src/common/reserv_object.py). -/

/-- `AllocSpace` from src/common/enums.py. -/
inductive VAllocSpace where
  | NEW_SPACE | OLD_SPACE | CODE_SPACE | MAP_SPACE | LO_SPACE
deriving DecidableEq

/-- `AllocSpace.from_int`. -/
def VAllocSpace.fromInt (v : Nat) : Option VAllocSpace :=
  if v = 0 then some .NEW_SPACE
  else if v = 1 then some .OLD_SPACE
  else if v = 2 then some .CODE_SPACE
  else if v = 3 then some .MAP_SPACE
  else if v = 4 then some .LO_SPACE
  else none

/-- Values held in reservation-object slots: roots, strings, raw
integers, or nested reservation objects (their slot maps inline).
A slot holding Python `None` is modelled by `Option.none` around
`VObj`. -/
inductive VObj where
  | rootObj (name type : String)
  | strVal (s : String)
  | intVal (n : Nat)
  | reservObj (size : Nat) (objects : List (Nat × Option VObj))

/-- Python `objects.get(offset)`: `None` both for an absent key and for
a stored `None`. -/
def dictGet (objects : List (Nat × Option VObj)) (off : Nat) : Option VObj :=
  match objects.find? (fun p => p.1 == off) with
  | some p => p.2
  | none => none

/-- Python `objects[off] = v` on the ordered dictionary. -/
def dictSet (objects : List (Nat × Option VObj)) (off : Nat) (v : Option VObj) :
    List (Nat × Option VObj) :=
  if objects.any (fun p => p.1 == off) then
    objects.map (fun p => if p.1 == off then (off, v) else p)
  else objects ++ [(off, v)]

/-- `ReservObject.get_aligned_object` from src/common/reserv_object.py:
plain lookup with 4-byte pointers; with 8-byte pointers an integer pair
at `off` / `off+4` composes to the high word shifted left by 32. -/
def get_aligned_object (is32 : Bool) (objects : List (Nat × Option VObj))
    (off : Nat) : Option VObj :=
  let obj := dictGet objects off
  if is32 then obj
  else
    match obj with
    | some (.intVal _) =>
      match dictGet objects (off + 4) with
      | some (.intVal n2) => some (.intVal (n2 <<< 32))
      | _ => obj
    | _ => obj

/-- A reservation object (chunk): declared size and slot map. -/
structure ReservObjectM where
  size : Nat
  objects : List (Nat × Option VObj)

/-- The parser state consulted by the back-reference path: the input
reader, the per-space reservation chunks, the hot-object ring and its
cursor. -/
structure BackrefState where
  data : List Nat
  pos : Nat
  reserv : List (VAllocSpace × List ReservObjectM)
  hots : List (Nat × Option VObj)
  lastHotIndex : Nat

/-- `self.reserv.get(space, [])` (an absent or `None` space key yields
the empty chunk list). -/
def reservGet (d : List (VAllocSpace × List ReservObjectM))
    (s : Option VAllocSpace) : List ReservObjectM :=
  match s with
  | none => []
  | some sp =>
    match d.find? (fun p => p.1 == sp) with
    | some p => p.2
    | none => []

/-- The chunk index / chunk offset computed by
`_get_back_referenced_object`: zero for the LO and MAP `TODO` branches,
the masked-shift decode otherwise. -/
def backref_chunk_index_offset (is32 : Bool) (space : Option VAllocSpace)
    (back_ref : Nat) : Nat × Nat :=
  match space with
  | some .LO_SPACE => (0, 0)
  | some .MAP_SPACE => (0, 0)
  | _ => decode_back_ref is32 back_ref

/-- `AllocSpace.from_int(state.value & 7)`: the space the `kBackref`
arm passes to `_get_back_referenced_object`. -/
def backrefSpaceOf (value : Nat) : Option VAllocSpace :=
  VAllocSpace.fromInt (value &&& 7)

/-- `JscParser._get_back_referenced_object` from src/v6/parser.py: read
a varint back-ref, decode chunk index and offset, return `None` when the
chunk index is out of range (without touching the hot ring), otherwise
fetch the slot (which may itself be `None`) and promote it to the hot
ring.  The only raising operation is the 4-byte read of `_read_int`. -/
def get_back_referenced_object (is32 : Bool) (st : BackrefState)
    (space : Option VAllocSpace) :
    Except PyError (Option VObj × BackrefState) :=
  match read_int st.data st.pos with
  | .error e => .error e
  | .ok br =>
    let st1 : BackrefState := { st with pos := br.2 }
    let cio := backref_chunk_index_offset is32 space br.1
    match (reservGet st1.reserv space)[cio.1]? with
    | none => .ok (none, st1)
    | some reserv_obj =>
      let back_obj := get_aligned_object is32 reserv_obj.objects cio.2
      .ok (back_obj,
        { st1 with
          hots := dictSet st1.hots st1.lastHotIndex back_obj,
          lastHotIndex := (st1.lastHotIndex + 1) &&& 7 })

/-- `kPointerSize` from `JscParser.__init__`. -/
def kPointerSize (is32 : Bool) : Nat := if is32 then 4 else 8

/-- The `kBackref` arm of `JscParser._read_space_data`: resolve the
back-reference, store the result (whatever it is, including `None`) at
the insertion offset with `add_object`, and return
`insert_off + kPointerSize`. -/
def read_space_data_backref (is32 : Bool) (st : BackrefState)
    (obj : List (Nat × Option VObj)) (insert_off value : Nat) :
    Except PyError (List (Nat × Option VObj) × Nat × BackrefState) :=
  match get_back_referenced_object is32 st (backrefSpaceOf value) with
  | .error e => .error e
  | .ok r => .ok (dictSet obj insert_off r.1, insert_off + kPointerSize is32, r.2)

end JscDecompiler

namespace JscDecompiler

/-- C4 counterexample: with the byte stream `[4, 0, 0, 0]` (back-ref
word 1), an empty reservation table and payload byte 0x09 (kBackref
into OLD_SPACE), the `kBackref` handler returns successfully — no
format error is raised — and silently stores a null (`none`) slot at
the insertion offset. -/
theorem backref_unresolvable_counterexample :
    read_space_data_backref true ⟨[4, 0, 0, 0], 0, [], [], 0⟩ [] 0 0x09 =
      .ok ([(0, none)], 4, ⟨[4, 0, 0, 0], 1, [], [], 0⟩) := rfl

/-- C4 (amended).  Deserialization does not abort on an unresolvable
back-reference: when the decoded chunk index is beyond the declared
chunks of the target space the handler returns without error and
inserts a null (`none`) slot at the insertion offset (leaving the hot
ring untouched), and when the chunk exists but no object was written at
the decoded offset the null lookup result is likewise inserted without
error (after promotion to the hot ring).  Only the unknown-payload-byte
path of `_read_data` raises a format error. -/
theorem backref_silent_null_ok (is32 : Bool) (st : BackrefState)
    (obj : List (Nat × Option VObj)) (insert_off value br pos2 : Nat)
    (hread : read_int st.data st.pos = .ok (br, pos2)) :
    ((reservGet st.reserv (backrefSpaceOf value))[
        (backref_chunk_index_offset is32 (backrefSpaceOf value) br).1]? = none →
      read_space_data_backref is32 st obj insert_off value =
        .ok (dictSet obj insert_off none, insert_off + kPointerSize is32,
          { st with pos := pos2 })) ∧
    (∀ ch, (reservGet st.reserv (backrefSpaceOf value))[
        (backref_chunk_index_offset is32 (backrefSpaceOf value) br).1]? = some ch →
      get_aligned_object is32 ch.objects
        (backref_chunk_index_offset is32 (backrefSpaceOf value) br).2 = none →
      read_space_data_backref is32 st obj insert_off value =
        .ok (dictSet obj insert_off none, insert_off + kPointerSize is32,
          { st with
            pos := pos2
            hots := dictSet st.hots st.lastHotIndex none
            lastHotIndex := (st.lastHotIndex + 1) &&& 7 })) := by
  constructor
  · intro hmiss
    unfold read_space_data_backref get_back_referenced_object
    rw [hread]
    simp only []
    rw [hmiss]
  · intro ch hch hmiss
    unfold read_space_data_backref get_back_referenced_object
    rw [hread]
    simp only []
    rw [hch]
    simp only [hmiss]

/-- C4 witness: the amended theorem applied at the concrete state of
the counterexample (empty reservation table) and at a state with one
OLD_SPACE chunk holding no object at the decoded offset. -/
theorem backref_silent_null_ok_witness :
    (read_space_data_backref true ⟨[4, 0, 0, 0], 0, [], [], 0⟩ [] 8 0x09 =
      .ok ([(8, none)], 12, ⟨[4, 0, 0, 0], 1, [], [], 0⟩)) ∧
    (read_space_data_backref true
        ⟨[4, 0, 0, 0], 0, [(.OLD_SPACE, [⟨8, []⟩])], [], 0⟩ [] 8 0x09 =
      .ok ([(8, none)], 12,
        ⟨[4, 0, 0, 0], 1, [(.OLD_SPACE, [⟨8, []⟩])], [(0, none)], 1⟩)) := by
  constructor
  · have h := (backref_silent_null_ok true ⟨[4, 0, 0, 0], 0, [], [], 0⟩
      [] 8 0x09 1 1 rfl).1 rfl
    exact h
  · have h := (backref_silent_null_ok true
      ⟨[4, 0, 0, 0], 0, [(.OLD_SPACE, [⟨8, []⟩])], [], 0⟩
      [] 8 0x09 1 1 rfl).2 ⟨8, []⟩ rfl rfl
    exact h

end JscDecompiler
